import Mathlib

/-!
# loraserver: device-queue selection and join orchestration

A shallow embedding of

* `internal/storage/device_queue.go` (the queue store and the selection engine
  `GetNextDeviceQueueItemForDevEUIMaxPayloadSizeAndFCnt`), and
* `internal/uplink/join_request.go` (the stages of the join pipeline),

followed by theorems about them.

Conventions.

* A Go `error` is an `Option Error`; `none` is `nil`.
* A Go function returning `(v, err)` returns a pair; the value is the zero
  value wherever the source returns the zero value.
* Machine integers are `Nat` / `Int`; `uint32` subtraction wraps modulo `2^32`
  (`u32sub`), `uint8(x)` truncates modulo `2^8`.
* The relational table `device_queue` is the list of its rows.  Collaborators
  that live outside the two files (profile lookups, client pools, the
  application-server client, the session store) are parameters gathered in an
  environment; calls that have an effect on a collaborator are recorded, in
  order, in the state.
-/

namespace Loraserver

/-! ## Errors -/

/-- Error values. `wrap` is what `errors.Wrap` builds, `errorf` what
`fmt.Errorf` builds from a format and an error argument. -/
inductive Error where
  | ErrDoesNotExist
  | ErrNoRows
  | new (msg : String)
  | wrap (cause : Error) (msg : String)
  | errorf (format : String) (arg : Error)
  deriving DecidableEq, Repr

/-- `errors.Wrap(err, msg)`: `nil` when `err` is `nil`, otherwise `err`
annotated with `msg`. -/
def errorsWrap : Option Error → String → Option Error
  | none, _ => none
  | some e, msg => some (Error.wrap e msg)

/-- `errors.Cause(err)`: strips every layer added by `errors.Wrap`. -/
def Error.Cause : Error → Error
  | Error.wrap c _ => c.Cause
  | e => e

/-- Modelled from the spec: `handlePSQLError` is defined in a file of the
storage package that is not among the sources. The no-rows result of a query
is the NotFound error `ErrDoesNotExist`; every other driver error is wrapped
with the operation's description. -/
def handlePSQLError (err : Error) (description : String) : Error :=
  match err with
  | Error.ErrNoRows => Error.ErrDoesNotExist
  | e => Error.wrap e description

/-! ## Data model -/

/-- `lorawan.EUI64`, the bytes of the identifier. -/
abbrev EUI64 := List Nat

/-- `DeviceQueueItem`: a row of `device_queue`. Times are instants on a clock
that counts in `Nat`; the defaults are the Go zero values. -/
structure DeviceQueueItem where
  ID : Int := 0
  CreatedAt : Nat := 0
  UpdatedAt : Nat := 0
  DevEUI : EUI64 := [0, 0, 0, 0, 0, 0, 0, 0]
  FRMPayload : List Nat := []
  FCnt : Nat := 0
  FPort : Nat := 0
  Confirmed : Bool := false
  EmitAt : Option Nat := none
  ForwardedAt : Option Nat := none
  RetryCount : Int := 0
  deriving DecidableEq, Repr

/-- The table `device_queue`. -/
abbrev Table := List DeviceQueueItem

/-- The primary key of `device_queue`: no two rows share an `id`. -/
def PrimaryKey (db : Table) : Prop := (db.map (fun r => r.ID)).Nodup

instance (db : Table) : Decidable (PrimaryKey db) := by
  unfold PrimaryKey; infer_instance

/-- The rows of a device, in table order. -/
def queueOf (db : Table) (devEUI : EUI64) : List DeviceQueueItem :=
  db.filter (fun r => r.DevEUI = devEUI)

/-- `as.ErrorType`, the two values the queue engine uses. -/
inductive ErrorType where
  | DEVICE_QUEUE_ITEM_SIZE
  | DEVICE_QUEUE_ITEM_FCNT
  deriving DecidableEq, Repr

/-- `as.HandleDownlinkACKRequest`. -/
structure HandleDownlinkACKRequest where
  DevEUI : List Nat
  FCnt : Nat
  Acknowledged : Bool
  deriving DecidableEq, Repr

/-- `as.HandleErrorRequest`. -/
structure HandleErrorRequest where
  DevEUI : List Nat
  Type_ : ErrorType
  FCnt : Nat
  Error : String
  deriving DecidableEq, Repr

/-- A request issued to an application-server client; `client` is the handle
the pool returned. -/
inductive ASCall where
  | HandleDownlinkACK (client : Nat) (req : HandleDownlinkACKRequest)
  | HandleError (client : Nat) (req : HandleErrorRequest)
  deriving DecidableEq, Repr

/-- The frame counter a request carries. -/
def ASCall.FCnt : ASCall → Nat
  | ASCall.HandleDownlinkACK _ r => r.FCnt
  | ASCall.HandleError _ r => r.FCnt

/-- `RoutingProfile`, the fields the engine reads. -/
structure RoutingProfile where
  RoutingProfileID : String := ""
  ASID : String := ""
  deriving DecidableEq, Repr

/-- What the queue engine reaches outside `device_queue.go`.

* `MaxFCntGap` is `common.Band.MaxFCntGap`;
* `queryErr` / `execErr` / `rowsAffectedErr` say whether the database driver
  fails a `select`, an `exec` or `RowsAffected` on the given table;
* `GetRoutingProfile` and `ApplicationServerPoolGet` are the two lookups that
  resolve the client;
* `asClientErr calls c` is the error the client returns for request `c` after
  the requests `calls`. -/
structure Env where
  MaxFCntGap : Nat
  queryErr : Table → Option Error
  execErr : Table → Option Error
  rowsAffectedErr : Table → Option Error
  GetRoutingProfile : String → RoutingProfile × Option Error
  ApplicationServerPoolGet : String → Nat × Option Error
  asClientErr : List ASCall → ASCall → Option Error

/-- The state the engine acts on: the table, and the requests issued so far to
application-server clients, in order (a request is recorded when it is made,
whether the client then answers with an error or not). -/
structure Store where
  rows : Table
  calls : List ASCall
  deriving DecidableEq, Repr

/-! ## Queue store -/

/-- `order by f_cnt limit 1`: the row with the least frame counter, the
earliest such row of the list when several share it. -/
def firstByFCnt : List DeviceQueueItem → Option DeviceQueueItem
  | [] => none
  | x :: xs =>
    match firstByFCnt xs with
    | none => some x
    | some y => if x.FCnt ≤ y.FCnt then some x else some y

/-- `GetNextDeviceQueueItemForDevEUI`. -/
def GetNextDeviceQueueItemForDevEUI (env : Env) (db : Table) (devEUI : EUI64) :
    DeviceQueueItem × Option Error :=
  match env.queryErr db with
  | some e => ({}, some (handlePSQLError e "select error"))
  | none =>
    match firstByFCnt (queueOf db devEUI) with
    | none => ({}, some (handlePSQLError Error.ErrNoRows "select error"))
    | some qi => (qi, none)

/-- `DeleteDeviceQueueItem`: the table afterwards and the error. -/
def DeleteDeviceQueueItem (env : Env) (db : Table) (id : Int) : Table × Option Error :=
  match env.execErr db with
  | some e => (db, some (handlePSQLError e "delete error"))
  | none =>
    let db' := db.filter (fun r => r.ID ≠ id)
    match env.rowsAffectedErr db with
    | some e => (db', errorsWrap (some e) "get rows affected error")
    | none =>
      if db.length - db'.length = 0 then (db', some Error.ErrDoesNotExist)
      else (db', none)

/-! ## Queue selection engine -/

/-- `a - b` on `uint32`. -/
def u32sub (a b : Nat) : Nat := (a % 4294967296 + (4294967296 - b % 4294967296)) % 4294967296

/-- How one pass through the body of the `for` loop ends. -/
inductive Step where
  | next (s : Store)
  | ret (s : Store) (qi : DeviceQueueItem) (err : Option Error)
  deriving DecidableEq, Repr

/-- The request sent for a discarded item: the `if / else if / else if` chain
of the loop body (`none` when no branch is taken). -/
def discardCall (env : Env) (client : Nat) (devEUI : EUI64) (maxPayloadSize : Int)
    (fCnt : Nat) (qi : DeviceQueueItem) : Option ASCall :=
  if qi.RetryCount < 0 then
    some (ASCall.HandleDownlinkACK client
      { DevEUI := devEUI, FCnt := qi.FCnt, Acknowledged := false })
  else if u32sub qi.FCnt fCnt > env.MaxFCntGap then
    some (ASCall.HandleError client
      { DevEUI := devEUI, Type_ := ErrorType.DEVICE_QUEUE_ITEM_FCNT, FCnt := qi.FCnt,
        Error := "frame-counter exceeds MaxFCntGap" })
  else if (qi.FRMPayload.length : Int) > maxPayloadSize then
    some (ASCall.HandleError client
      { DevEUI := devEUI, Type_ := ErrorType.DEVICE_QUEUE_ITEM_SIZE, FCnt := qi.FCnt,
        Error := "payload exceeds max payload size" })
  else none

/-- The condition of the outer `if` of the loop body. -/
def discarded (env : Env) (maxPayloadSize : Int) (fCnt : Nat) (qi : DeviceQueueItem) : Prop :=
  u32sub qi.FCnt fCnt > env.MaxFCntGap ∨ (qi.FRMPayload.length : Int) > maxPayloadSize ∨
    qi.RetryCount < 0

instance (env : Env) (maxPayloadSize : Int) (fCnt : Nat) (qi : DeviceQueueItem) :
    Decidable (discarded env maxPayloadSize fCnt qi) := by
  unfold discarded; infer_instance

/-- One pass through the body of the `for` loop of
`GetNextDeviceQueueItemForDevEUIMaxPayloadSizeAndFCnt`. -/
def loopBody (env : Env) (devEUI : EUI64) (maxPayloadSize : Int) (fCnt : Nat)
    (routingProfileID : String) (s : Store) : Step :=
  match GetNextDeviceQueueItemForDevEUI env s.rows devEUI with
  | (_, some e) => Step.ret s {} (errorsWrap (some e) "get next device-queue item error")
  | (qi, none) =>
    if discarded env maxPayloadSize fCnt qi then
      match env.GetRoutingProfile routingProfileID with
      | (_, some e) => Step.ret s {} (errorsWrap (some e) "get routing-profile error")
      | (rp, none) =>
        match env.ApplicationServerPoolGet rp.ASID with
        | (_, some e) =>
          Step.ret s {} (errorsWrap (some e) "get application-server client error")
        | (asClient, none) =>
          match DeleteDeviceQueueItem env s.rows qi.ID with
          | (db, some e) =>
            Step.ret { s with rows := db } {}
              (errorsWrap (some e) "delete device-queue item error")
          | (db, none) =>
            match discardCall env asClient devEUI maxPayloadSize fCnt qi with
            | none => Step.next { s with rows := db }
            | some c =>
              match env.asClientErr s.calls c with
              | some e =>
                Step.ret { rows := db, calls := s.calls ++ [c] } {}
                  (errorsWrap (some e) "application-server client error")
              | none => Step.next { rows := db, calls := s.calls ++ [c] }
    else Step.ret s qi none

/-- `GetNextDeviceQueueItemForDevEUIMaxPayloadSizeAndFCnt`. The `for` loop
runs for at most `fuel` passes; `none` means the passes ran out before the
function returned. The result is the state afterwards, the item and the
error. -/
def GetNextDeviceQueueItemForDevEUIMaxPayloadSizeAndFCnt (env : Env) (fuel : Nat)
    (s : Store) (devEUI : EUI64) (maxPayloadSize : Int) (fCnt : Nat)
    (routingProfileID : String) : Option (Store × DeviceQueueItem × Option Error) :=
  match fuel with
  | 0 => none
  | fuel + 1 =>
    match loopBody env devEUI maxPayloadSize fCnt routingProfileID s with
    | Step.ret s' qi err => some (s', qi, err)
    | Step.next s' =>
      GetNextDeviceQueueItemForDevEUIMaxPayloadSizeAndFCnt env fuel s' devEUI
        maxPayloadSize fCnt routingProfileID

/-- A later call in a sequence of calls: before it, the rows that `keep`
rejects are removed from the table (nothing is inserted); then the engine is
called with these arguments. -/
structure Call where
  keep : DeviceQueueItem → Bool
  maxPayloadSize : Int
  fCnt : Nat
  routingProfileID : String

/-- Runs a sequence of calls of the engine for one device and collects the
items returned. `none` when a call does not succeed. -/
def runCalls (env : Env) (fuel : Nat) (devEUI : EUI64) :
    List Call → Store → Option (List DeviceQueueItem)
  | [], _ => some []
  | c :: cs, s =>
    match GetNextDeviceQueueItemForDevEUIMaxPayloadSizeAndFCnt env fuel
        { s with rows := s.rows.filter c.keep } devEUI c.maxPayloadSize c.fCnt
        c.routingProfileID with
    | some (s', qi, none) => (runCalls env fuel devEUI cs s').map (fun qis => qi :: qis)
    | _ => none

/-! ## Join pipeline: data model -/

/-- `storage.Device`, the fields the pipeline reads. -/
structure Device where
  DevEUI : EUI64 := [0, 0, 0, 0, 0, 0, 0, 0]
  DeviceProfileID : String := ""
  ServiceProfileID : String := ""
  RoutingProfileID : String := ""
  deriving DecidableEq, Repr

/-- `storage.DeviceProfile`, the fields the pipeline reads. -/
structure DeviceProfile where
  DeviceProfileID : String := ""
  SupportsJoin : Bool := false
  MACVersion : String := ""
  deriving DecidableEq, Repr

/-- `storage.ServiceProfile`, the fields the pipeline reads (`DRMax` is
`ServiceProfile.ServiceProfile.DRMax`). -/
structure ServiceProfile where
  ServiceProfileID : String := ""
  DRMax : Int := 0
  deriving DecidableEq, Repr

/-- `lorawan.JoinRequestPayload`. -/
structure JoinRequestPayload where
  AppEUI : EUI64 := [0, 0, 0, 0, 0, 0, 0, 0]
  DevEUI : EUI64 := [0, 0, 0, 0, 0, 0, 0, 0]
  DevNonce : List Nat := [0, 0]
  deriving DecidableEq, Repr

/-- One element of `RXPacket.RXInfoSet`: the gateway that received the frame. -/
structure RXInfo where
  MAC : List Nat := [0, 0, 0, 0, 0, 0, 0, 0]
  deriving DecidableEq, Repr

/-- `models.RXPacket`, the fields the session construction reads. -/
structure RXPacket where
  RXInfoSet : List RXInfo := []
  deriving DecidableEq, Repr

/-- `backend.KeyEnvelope`. -/
structure KeyEnvelope where
  KEKLabel : String := ""
  AESKey : List Nat := [0, 0, 0, 0, 0, 0, 0, 0, 0, 0, 0, 0, 0, 0, 0, 0]
  deriving DecidableEq, Repr

/-- `backend.JoinAnsPayload`, the fields the pipeline reads. -/
structure JoinAnsPayload where
  PHYPayload : List Nat := []
  NwkSKey : KeyEnvelope := {}
  deriving DecidableEq, Repr

/-- `storage.RXWindow`. -/
inductive RXWindow where
  | RX1
  | RX2
  deriving DecidableEq, Repr

/-- `storage.DeviceSession`, the fields `createNodeSession` sets. -/
structure DeviceSession where
  DeviceProfileID : String := ""
  ServiceProfileID : String := ""
  RoutingProfileID : String := ""
  DevAddr : List Nat := [0, 0, 0, 0]
  JoinEUI : EUI64 := [0, 0, 0, 0, 0, 0, 0, 0]
  DevEUI : EUI64 := [0, 0, 0, 0, 0, 0, 0, 0]
  NwkSKey : List Nat := [0, 0, 0, 0, 0, 0, 0, 0, 0, 0, 0, 0, 0, 0, 0, 0]
  FCntUp : Nat := 0
  FCntDown : Nat := 0
  RXWindow : RXWindow := RXWindow.RX1
  RXDelay : Nat := 0
  RX1DROffset : Nat := 0
  RX2DR : Nat := 0
  EnabledChannels : List Int := []
  LastRXInfoSet : List RXInfo := []
  MaxSupportedDR : Int := 0
  deriving DecidableEq, Repr

/-- `JoinRequestContext`. `JoinRequestPayload` is a pointer in the source:
`none` is `nil`. -/
structure JoinRequestContext where
  RXPacket : RXPacket := {}
  JoinRequestPayload : Option JoinRequestPayload := none
  Device : Device := {}
  DeviceProfile : DeviceProfile := {}
  ServiceProfile : ServiceProfile := {}
  DevAddr : List Nat := [0, 0, 0, 0]
  JoinAnsPayload : JoinAnsPayload := {}
  DeviceSession : DeviceSession := {}
  deriving DecidableEq, Repr

/-- A call on the session store (`common.RedisPool`). -/
inductive RedisCall where
  | SaveDeviceSession (ds : DeviceSession)
  | FlushQueue (devEUI : EUI64)
  deriving DecidableEq, Repr

/-- What the join stages reach outside `join_request.go`.

* the three lookups of the storage package;
* the configuration values `common.RX1Delay`, `common.RX1DROffset`,
  `common.RX2DR` and the channels `common.Band.GetUplinkChannels()`;
* `SaveDeviceSessionErr calls ds` / `FlushQueueErr calls devEUI`: the error
  `storage.SaveDeviceSession` / `maccommand.FlushQueue` returns after the
  calls `calls`. -/
structure JoinEnv where
  GetDevice : EUI64 → Device × Option Error
  GetDeviceProfile : String → DeviceProfile × Option Error
  GetServiceProfile : String → ServiceProfile × Option Error
  RX1Delay : Int
  RX1DROffset : Int
  RX2DR : Int
  UplinkChannels : List Int
  SaveDeviceSessionErr : List RedisCall → DeviceSession → Option Error
  FlushQueueErr : List RedisCall → EUI64 → Option Error

/-- The conversion `uint8(x)`. -/
def uint8 (x : Int) : Nat := (x % 256).toNat

/-! ## Join pipeline: stages -/

/-- `getDeviceAndDeviceProfile`. The result is `none` when the stage panics
(the join-request payload is `nil`), otherwise the context afterwards and the
error returned. -/
def getDeviceAndDeviceProfile (env : JoinEnv) (ctx : JoinRequestContext) :
    Option (JoinRequestContext × Option Error) :=
  match ctx.JoinRequestPayload with
  | none => none
  | some jr =>
    match env.GetDevice jr.DevEUI with
    | (d, some e) => some ({ ctx with Device := d }, errorsWrap (some e) "get device error")
    | (d, none) =>
      let ctx := { ctx with Device := d }
      match env.GetDeviceProfile ctx.Device.DeviceProfileID with
      | (dp, some e) =>
        some ({ ctx with DeviceProfile := dp }, errorsWrap (some e) "get device-profile error")
      | (dp, none) =>
        let ctx := { ctx with DeviceProfile := dp }
        match env.GetServiceProfile ctx.Device.ServiceProfileID with
        | (sp, some e) =>
          some ({ ctx with ServiceProfile := sp },
            errorsWrap (some e) "get service-profile error")
        | (sp, err) =>
          let ctx := { ctx with ServiceProfile := sp }
          if !ctx.DeviceProfile.SupportsJoin then
            some (ctx, errorsWrap err "device does not support join")
          else some (ctx, none)

/-- `createNodeSession`. The state is the sequence of calls made on the
session store. The result is `none` when the stage panics (the join-request
payload is `nil`), otherwise the context and the calls afterwards and the
error returned. -/
def createNodeSession (env : JoinEnv) (ctx : JoinRequestContext) (calls : List RedisCall) :
    Option (JoinRequestContext × List RedisCall × Option Error) :=
  if ctx.JoinAnsPayload.NwkSKey.KEKLabel ≠ "" then
    some (ctx, calls, some (Error.new "NwkSKey KEKLabel unsupported"))
  else
    match ctx.JoinRequestPayload with
    | none => none
    | some jr =>
      let ds : DeviceSession :=
        { DeviceProfileID := ctx.Device.DeviceProfileID
          ServiceProfileID := ctx.Device.ServiceProfileID
          RoutingProfileID := ctx.Device.RoutingProfileID
          DevAddr := ctx.DevAddr
          JoinEUI := jr.AppEUI
          DevEUI := jr.DevEUI
          NwkSKey := ctx.JoinAnsPayload.NwkSKey.AESKey
          FCntUp := 0
          FCntDown := 0
          RXWindow := RXWindow.RX1
          RXDelay := uint8 env.RX1Delay
          RX1DROffset := uint8 env.RX1DROffset
          RX2DR := uint8 env.RX2DR
          EnabledChannels := env.UplinkChannels
          LastRXInfoSet := ctx.RXPacket.RXInfoSet
          MaxSupportedDR := ctx.ServiceProfile.DRMax }
      let ctx := { ctx with DeviceSession := ds }
      match env.SaveDeviceSessionErr calls ctx.DeviceSession with
      | some e =>
        some (ctx, calls ++ [RedisCall.SaveDeviceSession ctx.DeviceSession],
          errorsWrap (some e) "save node-session error")
      | none =>
        let calls := calls ++ [RedisCall.SaveDeviceSession ctx.DeviceSession]
        match env.FlushQueueErr calls ctx.DeviceSession.DevEUI with
        | some e =>
          some (ctx, calls ++ [RedisCall.FlushQueue ctx.DeviceSession.DevEUI],
            some (Error.errorf "flush mac-command queue error: %s" e))
        | none => some (ctx, calls ++ [RedisCall.FlushQueue ctx.DeviceSession.DevEUI], none)

/-! ## Queue store: update and listing -/

/-- `UpdateDeviceQueueItem`. `now` is the value of `time.Now()`. The result is
the item as the caller sees it afterwards (`UpdatedAt` is set through the
pointer), the table afterwards and the error. -/
def UpdateDeviceQueueItem (env : Env) (now : Nat) (db : Table) (qi : DeviceQueueItem) :
    DeviceQueueItem × Table × Option Error :=
  let qi := { qi with UpdatedAt := now }
  match env.execErr db with
  | some e => (qi, db, some (handlePSQLError e "update error"))
  | none =>
    let db' := db.map (fun r =>
      if r.ID = qi.ID then
        { r with
          UpdatedAt := qi.UpdatedAt
          DevEUI := qi.DevEUI
          FRMPayload := qi.FRMPayload
          FCnt := qi.FCnt
          FPort := qi.FPort
          Confirmed := qi.Confirmed
          EmitAt := qi.EmitAt
          ForwardedAt := qi.ForwardedAt
          RetryCount := qi.RetryCount }
      else r)
    match env.rowsAffectedErr db with
    | some e => (qi, db', errorsWrap (some e) "get rows affected error")
    | none =>
      if (db.filter (fun r => r.ID = qi.ID)).length = 0 then
        (qi, db', some Error.ErrDoesNotExist)
      else (qi, db', none)

/-- `GetDeviceQueueItemsForDevEUI`: the rows of the device ordered by frame
counter (rows that share a frame counter stay in table order). -/
def GetDeviceQueueItemsForDevEUI (env : Env) (db : Table) (devEUI : EUI64) :
    List DeviceQueueItem × Option Error :=
  match env.queryErr db with
  | some e => ([], some (handlePSQLError e "select error"))
  | none => ((queueOf db devEUI).insertionSort (fun a b => a.FCnt ≤ b.FCnt), none)

/-! ## Downlink context builder -/

/-- `DataContext`, the fields the test of `getNextDeviceQueueItem` sets and
compares. -/
structure DataContext where
  DeviceSession : DeviceSession := {}
  RemainingPayloadSize : Int := 0
  Confirmed : Bool := false
  Data : List Nat := []
  FPort : Nat := 0
  MoreData : Bool := false
  deriving DecidableEq, Repr

/-- Modelled from the spec: `getNextDeviceQueueItem` is defined in
`internal/downlink/data.go`, which is not among the sources (only its test
`data_test.go` is). Following section 4.3 of the specification:

* the selection engine is called with the device of the session, the
  remaining payload budget, the session's downlink frame counter and its
  routing profile;
* if it reports queue exhaustion (an error whose cause is `ErrDoesNotExist`),
  that is not an error: payload, port and confirmed flag of the context are
  cleared and "more data" is set to false;
* any other error is wrapped and returned;
* if an item is returned, the confirmed flag, the payload and the port are set
  from it, the payload's length is subtracted from the remaining budget, and
  "more data" is set to true iff at least one other item remains in the
  device's queue (the queue is listed, not consumed);
* then an unconfirmed item is deleted from the queue, and a confirmed item is
  kept, its retry-count decremented by exactly 1 and the updated item
  persisted.

The result is `none` when the engine runs out of passes, otherwise the context
and the state afterwards and the error returned. -/
def getNextDeviceQueueItem (env : Env) (fuel : Nat) (now : Nat) (ctx : DataContext)
    (s : Store) : Option (DataContext × Store × Option Error) :=
  match GetNextDeviceQueueItemForDevEUIMaxPayloadSizeAndFCnt env fuel s
      ctx.DeviceSession.DevEUI ctx.RemainingPayloadSize ctx.DeviceSession.FCntDown
      ctx.DeviceSession.RoutingProfileID with
  | none => none
  | some (s1, _, some e) =>
    if e.Cause = Error.ErrDoesNotExist then
      some ({ ctx with Data := [], FPort := 0, Confirmed := false, MoreData := false }, s1, none)
    else some (ctx, s1, some (Error.wrap e "get next device-queue item error"))
  | some (s1, qi, none) =>
    let ctx :=
      { ctx with
        Confirmed := qi.Confirmed
        Data := qi.FRMPayload
        FPort := qi.FPort
        RemainingPayloadSize := ctx.RemainingPayloadSize - (qi.FRMPayload.length : Int) }
    match GetDeviceQueueItemsForDevEUI env s1.rows ctx.DeviceSession.DevEUI with
    | (_, some e) => some (ctx, s1, some (Error.wrap e "get device-queue items error"))
    | (items, none) =>
      let ctx := { ctx with MoreData := decide (items.length > 1) }
      if !qi.Confirmed then
        match DeleteDeviceQueueItem env s1.rows qi.ID with
        | (db, some e) =>
          some (ctx, { s1 with rows := db },
            some (Error.wrap e "delete device-queue item error"))
        | (db, none) => some (ctx, { s1 with rows := db }, none)
      else
        match UpdateDeviceQueueItem env now s1.rows
            { qi with RetryCount := qi.RetryCount - 1 } with
        | (_, db, some e) =>
          some (ctx, { s1 with rows := db },
            some (Error.wrap e "update device-queue item error"))
        | (_, db, none) => some (ctx, { s1 with rows := db }, none)

/-! ## Fixtures

The data of `TestDeviceQueue` in `device_queue_test.go`, and a join context. -/

/-- The device of the tests. -/
def testDevEUI : EUI64 := [1, 2, 3, 4, 5, 6, 7, 8]

/-- An environment in which no collaborator fails; the application-server
pool hands out client `1`, and `MaxFCntGap` is 16384. -/
def testEnv : Env :=
  { MaxFCntGap := 16384
    queryErr := fun _ => none
    execErr := fun _ => none
    rowsAffectedErr := fun _ => none
    GetRoutingProfile := fun id => ({ RoutingProfileID := id, ASID := "as" }, none)
    ApplicationServerPoolGet := fun _ => (1, none)
    asClientErr := fun _ _ => none }

/-- The five queue items of the test of the selection engine, with the ids
the inserts assign. -/
def testItems : Table :=
  [ { ID := 1, DevEUI := testDevEUI, FCnt := 100, FPort := 1,
      FRMPayload := [1, 2, 3, 4, 5, 6, 7], RetryCount := -1 },
    { ID := 2, DevEUI := testDevEUI, FCnt := 101, FPort := 1,
      FRMPayload := [1, 2, 3, 4, 5, 6, 7] },
    { ID := 3, DevEUI := testDevEUI, FCnt := 102, FPort := 2,
      FRMPayload := [1, 2, 3, 4, 5, 6] },
    { ID := 4, DevEUI := testDevEUI, FCnt := 103, FPort := 3, FRMPayload := [1, 2, 3, 4, 5] },
    { ID := 5, DevEUI := testDevEUI, FCnt := 104, FPort := 4, FRMPayload := [1, 2, 3, 4] } ]

/-- The `i`-th item of `testItems`. -/
def testItem (i : Nat) : DeviceQueueItem := testItems.getD i {}

/-- The request that reports a discarded item as not acknowledged. -/
def nack (client : Nat) (devEUI : EUI64) (fCnt : Nat) : ASCall :=
  ASCall.HandleDownlinkACK client { DevEUI := devEUI, FCnt := fCnt, Acknowledged := false }

/-- The request that reports a frame-counter error. -/
def fCntError (client : Nat) (devEUI : EUI64) (fCnt : Nat) : ASCall :=
  ASCall.HandleError client
    { DevEUI := devEUI, Type_ := ErrorType.DEVICE_QUEUE_ITEM_FCNT, FCnt := fCnt,
      Error := "frame-counter exceeds MaxFCntGap" }

/-- The request that reports a payload-size error. -/
def sizeError (client : Nat) (devEUI : EUI64) (fCnt : Nat) : ASCall :=
  ASCall.HandleError client
    { DevEUI := devEUI, Type_ := ErrorType.DEVICE_QUEUE_ITEM_SIZE, FCnt := fCnt,
      Error := "payload exceeds max payload size" }

/-- A join environment in which every lookup succeeds and the device profile
found does not support join. -/
def joinEnvNoJoin : JoinEnv :=
  { GetDevice := fun devEUI =>
      ({ DevEUI := devEUI, DeviceProfileID := "dp", ServiceProfileID := "sp",
         RoutingProfileID := "rp" }, none)
    GetDeviceProfile := fun id => ({ DeviceProfileID := id, SupportsJoin := false }, none)
    GetServiceProfile := fun id => ({ ServiceProfileID := id, DRMax := 5 }, none)
    RX1Delay := 1
    RX1DROffset := 0
    RX2DR := 0
    UplinkChannels := [0, 1, 2]
    SaveDeviceSessionErr := fun _ _ => none
    FlushQueueErr := fun _ _ => none }

/-- A join context after the first stage: the join-request payload is set. -/
def joinCtx : JoinRequestContext :=
  { RXPacket := { RXInfoSet := [{ MAC := [1, 1, 1, 1, 1, 1, 1, 1] }] }
    JoinRequestPayload := some { AppEUI := [8, 7, 6, 5, 4, 3, 2, 1], DevEUI := testDevEUI,
                                 DevNonce := [1, 2] }
    DevAddr := [1, 2, 3, 4]
    JoinAnsPayload := { PHYPayload := [32], NwkSKey := { AESKey := List.replicate 16 7 } } }

/-- The environment `testEnv` with an application-server client that fails
every request. -/
def testEnvClientDown : Env :=
  { testEnv with asClientErr := fun _ _ => some (Error.new "rpc error: unavailable") }

/-- The join environment `joinEnvNoJoin` with a device profile that supports
join. -/
def joinEnv : JoinEnv :=
  { joinEnvNoJoin with
    GetDeviceProfile := fun id => ({ DeviceProfileID := id, SupportsJoin := true }, none) }

/-- The context `joinCtx` after the device lookup, with a join answer whose
session key is wrapped. -/
def joinCtxWrappedKey : JoinRequestContext :=
  { joinCtx with
    Device := { DevEUI := testDevEUI, DeviceProfileID := "dp", ServiceProfileID := "sp",
                RoutingProfileID := "rp" }
    JoinAnsPayload := { PHYPayload := [32],
                        NwkSKey := { KEKLabel := "kek-1", AESKey := List.replicate 16 7 } } }

/-- The context `joinCtx` after the lookups and the join-server exchange, with
a session left over from an earlier activation. -/
def joinCtxReady : JoinRequestContext :=
  { joinCtx with
    Device := { DevEUI := testDevEUI, DeviceProfileID := "dp", ServiceProfileID := "sp",
                RoutingProfileID := "rp" }
    DeviceProfile := { DeviceProfileID := "dp", SupportsJoin := true }
    ServiceProfile := { ServiceProfileID := "sp", DRMax := 5 }
    DeviceSession := { DevEUI := testDevEUI, FCntUp := 17, FCntDown := 9,
                       RXWindow := RXWindow.RX2 } }

/-- The three queue items of the test of the store, with the ids and the
creation time (`50`) the inserts assign; `100` is the test's `now` and `3700`
its `inOneHour`. -/
def storeItems : Table :=
  [ { ID := 1, CreatedAt := 50, UpdatedAt := 50, DevEUI := testDevEUI, FRMPayload := [1, 2, 3],
      FCnt := 1, FPort := 10, Confirmed := true, RetryCount := 3 },
    { ID := 2, CreatedAt := 50, UpdatedAt := 50, DevEUI := testDevEUI, FRMPayload := [4, 5, 6],
      FCnt := 3, FPort := 11, EmitAt := some 100 },
    { ID := 3, CreatedAt := 50, UpdatedAt := 50, DevEUI := testDevEUI, FRMPayload := [7, 8, 9],
      FCnt := 2, FPort := 12, EmitAt := some 3700, ForwardedAt := some 100 } ]

/-- The `i`-th item of `storeItems`. -/
def storeItem (i : Nat) : DeviceQueueItem := storeItems.getD i {}

/-- The two queue items of `TestGetNextDeviceQueueItem`, with the ids the
inserts assign. -/
def dataItems : Table :=
  [ { ID := 1, DevEUI := testDevEUI, FRMPayload := [1, 2, 3, 4], FCnt := 10, FPort := 1 },
    { ID := 2, DevEUI := testDevEUI, FRMPayload := [4, 5, 6, 7], Confirmed := true, FCnt := 11,
      FPort := 1, RetryCount := 2 } ]

/-- The `i`-th item of `dataItems`. -/
def dataItem (i : Nat) : DeviceQueueItem := dataItems.getD i {}

/-- The context of `TestGetNextDeviceQueueItem` with downlink frame counter
`fCntDown`. -/
def dataCtx (fCntDown : Nat) : DataContext :=
  { DeviceSession := { RoutingProfileID := "rp", DevEUI := testDevEUI, FCntDown := fCntDown }
    RemainingPayloadSize := 242 }

/-- The environment `testEnv` in which no routing profile is found. -/
def testEnvNoRoutingProfile : Env :=
  { testEnv with GetRoutingProfile := fun _ => ({}, some Error.ErrDoesNotExist) }

/-! # Theorems -/

/-! ## Lemmas on the queue store -/

theorem firstByFCnt_eq_none {l : List DeviceQueueItem} (h : firstByFCnt l = none) : l = [] := by
  cases l with
  | nil => rfl
  | cons x xs =>
    simp only [firstByFCnt] at h
    split at h
    · cases h
    · split at h <;> cases h

theorem firstByFCnt_mem {l : List DeviceQueueItem} {q : DeviceQueueItem}
    (h : firstByFCnt l = some q) : q ∈ l := by
  induction l generalizing q with
  | nil => simp [firstByFCnt] at h
  | cons x xs ih =>
    simp only [firstByFCnt] at h
    split at h
    · cases h; simp
    · rename_i y hy
      split at h
      · cases h; simp
      · cases h; exact List.mem_cons_of_mem _ (ih hy)

theorem firstByFCnt_le {l : List DeviceQueueItem} {q : DeviceQueueItem}
    (h : firstByFCnt l = some q) : ∀ x ∈ l, q.FCnt ≤ x.FCnt := by
  induction l generalizing q with
  | nil => simp
  | cons x xs ih =>
    simp only [firstByFCnt] at h
    intro z hz
    split at h
    · rename_i hn
      cases h
      have := firstByFCnt_eq_none hn
      subst this
      simp at hz
      subst hz
      exact le_refl _
    · rename_i y hy
      have hmin := ih hy
      rcases List.mem_cons.1 hz with rfl | hz
      · split at h
        · cases h; exact le_refl _
        · cases h; omega
      · split at h
        · cases h; exact le_trans (by assumption) (hmin z hz)
        · cases h; exact hmin z hz

/-- A successful fetch returns a row of the device's queue, with the least
frame counter of that queue. -/
theorem getNext_ok {env : Env} {db : Table} {devEUI : EUI64} {q : DeviceQueueItem}
    (h : GetNextDeviceQueueItemForDevEUI env db devEUI = (q, none)) :
    firstByFCnt (queueOf db devEUI) = some q := by
  unfold GetNextDeviceQueueItemForDevEUI at h
  split at h
  · simp at h
  · split at h
    · simp at h
    · rename_i qi hqi
      simp only [Prod.mk.injEq, and_true] at h
      rw [hqi, h]

theorem getNext_mem_queue {env : Env} {db : Table} {devEUI : EUI64} {q : DeviceQueueItem}
    (h : GetNextDeviceQueueItemForDevEUI env db devEUI = (q, none)) :
    q ∈ queueOf db devEUI :=
  firstByFCnt_mem (getNext_ok h)

theorem mem_queueOf {db : Table} {devEUI : EUI64} {q : DeviceQueueItem} :
    q ∈ queueOf db devEUI ↔ q ∈ db ∧ q.DevEUI = devEUI := by
  simp [queueOf]

theorem getNext_mem {env : Env} {db : Table} {devEUI : EUI64} {q : DeviceQueueItem}
    (h : GetNextDeviceQueueItemForDevEUI env db devEUI = (q, none)) : q ∈ db :=
  (mem_queueOf.1 (getNext_mem_queue h)).1

theorem PrimaryKey.nodup {db : Table} (h : PrimaryKey db) : db.Nodup :=
  List.Nodup.of_map _ h

/-- Under the primary key, deleting by the id of a stored row erases that row. -/
theorem filter_id_eq_erase {db : Table} {q : DeviceQueueItem} (hpk : PrimaryKey db)
    (hq : q ∈ db) : db.filter (fun r => r.ID ≠ q.ID) = db.erase q := by
  rw [List.Nodup.erase_eq_filter hpk.nodup]
  apply List.filter_congr
  intro r hr
  by_cases hrq : r = q
  · subst hrq; simp
  · have : r.ID ≠ q.ID := fun hid => hrq (List.inj_on_of_nodup_map hpk hr hq hid)
    simp [hrq, this]

theorem PrimaryKey.erase {db : Table} (h : PrimaryKey db) (q : DeviceQueueItem) :
    PrimaryKey (db.erase q) :=
  List.Nodup.sublist ((List.erase_sublist q db).map _) h

theorem PrimaryKey.filter {db : Table} (h : PrimaryKey db) (p : DeviceQueueItem → Bool) :
    PrimaryKey (db.filter p) :=
  List.Nodup.sublist ((List.filter_sublist db).map _) h

/-- A delete that returns no error has removed the rows with the given id. -/
theorem delete_ok {env : Env} {db : Table} {id : Int}
    (h : (DeleteDeviceQueueItem env db id).2 = none) :
    DeleteDeviceQueueItem env db id = (db.filter (fun r => r.ID ≠ id), none) := by
  unfold DeleteDeviceQueueItem at h ⊢
  split
  · rename_i e he; simp [he] at h
  · rename_i he
    simp only [he] at h ⊢
    split
    · rename_i e hr; simp [hr, errorsWrap] at h
    · rename_i hr
      simp only [hr] at h ⊢
      split
      · rename_i h0
        simp only [decide_not] at h0 h
        rw [if_pos h0] at h
        cases h
      · rfl

/-- Without driver failures, deleting by the id of a stored row succeeds. -/
theorem delete_of_mem {env : Env} {db : Table} {q : DeviceQueueItem}
    (he : env.execErr db = none) (hr : env.rowsAffectedErr db = none) (hq : q ∈ db) :
    DeleteDeviceQueueItem env db q.ID = (db.filter (fun r => r.ID ≠ q.ID), none) := by
  have hlt : (db.filter (fun r => decide (r.ID ≠ q.ID))).length < db.length :=
    List.length_filter_lt_length_iff_exists.2 ⟨q, hq, by simp⟩
  unfold DeleteDeviceQueueItem
  simp only [he, hr]
  rw [if_neg (by omega)]

/-! ## Lemmas on one pass of the loop -/

theorem loopBody_keep {env : Env} {devEUI : EUI64} {maxPayloadSize : Int} {fCnt : Nat}
    {routingProfileID : String} {s : Store} {q : DeviceQueueItem}
    (hq : GetNextDeviceQueueItemForDevEUI env s.rows devEUI = (q, none))
    (hk : ¬ discarded env maxPayloadSize fCnt q) :
    loopBody env devEUI maxPayloadSize fCnt routingProfileID s = Step.ret s q none := by
  simp only [loopBody, hq, if_neg hk]

theorem loopBody_discard {env : Env} {devEUI : EUI64} {maxPayloadSize : Int} {fCnt : Nat}
    {routingProfileID : String} {s : Store} {q : DeviceQueueItem} {rp : RoutingProfile}
    {client : Nat} {c : ASCall}
    (hq : GetNextDeviceQueueItemForDevEUI env s.rows devEUI = (q, none))
    (hd : discarded env maxPayloadSize fCnt q)
    (hrp : env.GetRoutingProfile routingProfileID = (rp, none))
    (hcl : env.ApplicationServerPoolGet rp.ASID = (client, none))
    (hdel : (DeleteDeviceQueueItem env s.rows q.ID).2 = none)
    (hc : discardCall env client devEUI maxPayloadSize fCnt q = some c) :
    loopBody env devEUI maxPayloadSize fCnt routingProfileID s =
      match env.asClientErr s.calls c with
      | some e =>
        Step.ret { rows := s.rows.filter (fun r => r.ID ≠ q.ID), calls := s.calls ++ [c] } {}
          (some (Error.wrap e "application-server client error"))
      | none =>
        Step.next { rows := s.rows.filter (fun r => r.ID ≠ q.ID), calls := s.calls ++ [c] } := by
  simp only [loopBody, hq, if_pos hd, hrp, hcl, delete_ok hdel, hc]
  cases env.asClientErr s.calls c <;> simp [errorsWrap]

theorem discardCall_of_discarded {env : Env} {maxPayloadSize : Int} {fCnt : Nat}
    {q : DeviceQueueItem} (client : Nat) (devEUI : EUI64)
    (hd : discarded env maxPayloadSize fCnt q) :
    ∃ c, discardCall env client devEUI maxPayloadSize fCnt q = some c ∧ c.FCnt = q.FCnt := by
  unfold discardCall
  unfold discarded at hd
  by_cases h1 : q.RetryCount < 0
  · exact ⟨_, if_pos h1, rfl⟩
  · by_cases h2 : u32sub q.FCnt fCnt > env.MaxFCntGap
    · rw [if_neg h1, if_pos h2]; exact ⟨_, rfl, rfl⟩
    · have h3 : (q.FRMPayload.length : Int) > maxPayloadSize := by tauto
      rw [if_neg h1, if_neg h2, if_pos h3]; exact ⟨_, rfl, rfl⟩

theorem run_succ (env : Env) (fuel : Nat) (s : Store) (devEUI : EUI64) (maxPayloadSize : Int)
    (fCnt : Nat) (routingProfileID : String) :
    GetNextDeviceQueueItemForDevEUIMaxPayloadSizeAndFCnt env (fuel + 1) s devEUI maxPayloadSize
        fCnt routingProfileID =
      match loopBody env devEUI maxPayloadSize fCnt routingProfileID s with
      | Step.ret s' qi err => some (s', qi, err)
      | Step.next s' =>
        GetNextDeviceQueueItemForDevEUIMaxPayloadSizeAndFCnt env fuel s' devEUI
          maxPayloadSize fCnt routingProfileID := by
  rw [GetNextDeviceQueueItemForDevEUIMaxPayloadSizeAndFCnt]

/-! ## Join stage 3 -/

/-- When the three lookups succeed and the device profile does not support
join, `getDeviceAndDeviceProfile` returns `errors.Wrap(nil, ...)`, which is
`nil`. -/
theorem getDeviceAndDeviceProfile_no_join (env : JoinEnv) (ctx : JoinRequestContext)
    (jr : JoinRequestPayload) (d : Device) (dp : DeviceProfile) (sp : ServiceProfile)
    (hjr : ctx.JoinRequestPayload = some jr)
    (hd : env.GetDevice jr.DevEUI = (d, none))
    (hdp : env.GetDeviceProfile d.DeviceProfileID = (dp, none))
    (hsp : env.GetServiceProfile d.ServiceProfileID = (sp, none))
    (hj : dp.SupportsJoin = false) :
    getDeviceAndDeviceProfile env ctx =
      some ({ ctx with Device := d, DeviceProfile := dp, ServiceProfile := sp }, none) := by
  simp [getDeviceAndDeviceProfile, hjr, hd, hdp, hsp, hj, errorsWrap]

/-- C1 (the code departs from the claim): in `joinEnvNoJoin` the device, the
device profile and the service profile of `joinCtx` are all found, the device
profile has `SupportsJoin = false`, and `getDeviceAndDeviceProfile` returns
the `nil` error, so the pipeline goes on to the nonce validation. -/
theorem C1_getDeviceAndDeviceProfile_no_join_returns_nil :
    (joinEnvNoJoin.GetDevice testDevEUI).2 = none ∧
    (joinEnvNoJoin.GetDeviceProfile "dp").2 = none ∧
    (joinEnvNoJoin.GetServiceProfile "sp").2 = none ∧
    (joinEnvNoJoin.GetDeviceProfile "dp").1.SupportsJoin = false ∧
    (getDeviceAndDeviceProfile joinEnvNoJoin joinCtx).map Prod.snd = some none := by
  refine ⟨rfl, rfl, rfl, rfl, ?_⟩
  rw [getDeviceAndDeviceProfile_no_join joinEnvNoJoin joinCtx _ _ _ _ rfl rfl rfl rfl rfl]
  rfl

/-! ## The selection engine: one item -/

/-- C2, counterexample. The queue holds the items with frame counters 101 to
104, the expected frame counter is 102 and the maximum payload size 7. The
lowest item (frame counter 101) has retry-count 0, its payload of 7 bytes
fits, and the integer difference 101 - 102 = -1 does not exceed
`MaxFCntGap = 16384`; yet the call does not return it: it is deleted, a
frame-counter error is sent for it and the item with frame counter 102 is
returned. -/
theorem C2_counterexample :
    GetNextDeviceQueueItemForDevEUI testEnv testItems.tail testDevEUI = (testItem 1, none) ∧
    0 ≤ (testItem 1).RetryCount ∧
    ((testItem 1).FCnt : Int) - (102 : Int) ≤ (testEnv.MaxFCntGap : Int) ∧
    ((testItem 1).FRMPayload.length : Int) ≤ 7 ∧
    GetNextDeviceQueueItemForDevEUIMaxPayloadSizeAndFCnt testEnv 5
        { rows := testItems.tail, calls := [] } testDevEUI 7 102 "rp" =
      some ({ rows := testItems.drop 2, calls := [fCntError 1 testDevEUI 101] },
        testItem 2, none) ∧
    GetNextDeviceQueueItemForDevEUIMaxPayloadSizeAndFCnt testEnv 5
        { rows := testItems.tail, calls := [] } testDevEUI 7 102 "rp" ≠
      some ({ rows := testItems.tail, calls := [] }, testItem 1, none) := by
  refine ⟨rfl, by decide, by decide, by decide, rfl, by decide⟩

/-- C2, amended. If the fetch of the lowest-frame-counter item yields `q`,
`q.RetryCount ≥ 0`, the `uint32` difference `(q.FCnt - fCnt) mod 2^32` does
not exceed `MaxFCntGap`, and the payload length does not exceed
`maxPayloadSize`, then the call (with any positive number of passes allowed)
succeeds with exactly `q` and leaves the state as it was: nothing is deleted
and no request is sent. -/
theorem C2_returns_lowest_item_unchanged (env : Env) (fuel : Nat) (s : Store) (devEUI : EUI64)
    (maxPayloadSize : Int) (fCnt : Nat) (routingProfileID : String) (q : DeviceQueueItem)
    (hq : GetNextDeviceQueueItemForDevEUI env s.rows devEUI = (q, none))
    (hretry : 0 ≤ q.RetryCount)
    (hgap : u32sub q.FCnt fCnt ≤ env.MaxFCntGap)
    (hsize : (q.FRMPayload.length : Int) ≤ maxPayloadSize) :
    GetNextDeviceQueueItemForDevEUIMaxPayloadSizeAndFCnt env (fuel + 1) s devEUI maxPayloadSize
        fCnt routingProfileID = some (s, q, none) := by
  have hk : ¬ discarded env maxPayloadSize fCnt q := by
    unfold discarded; omega
  rw [run_succ, loopBody_keep hq hk]

/-- C2, witness: with the items 101 to 104 queued, expected frame counter 101
and maximum payload size 7, the item with frame counter 101 is returned and
the state is unchanged. -/
theorem C2_returns_lowest_item_unchanged_witness :
    GetNextDeviceQueueItemForDevEUI testEnv testItems.tail testDevEUI = (testItem 1, none) ∧
    0 ≤ (testItem 1).RetryCount ∧
    u32sub (testItem 1).FCnt 101 ≤ testEnv.MaxFCntGap ∧
    ((testItem 1).FRMPayload.length : Int) ≤ 7 ∧
    GetNextDeviceQueueItemForDevEUIMaxPayloadSizeAndFCnt testEnv (0 + 1)
        { rows := testItems.tail, calls := [] } testDevEUI 7 101 "rp" =
      some ({ rows := testItems.tail, calls := [] }, testItem 1, none) :=
  ⟨rfl, by decide, by decide, by decide,
    C2_returns_lowest_item_unchanged testEnv 0 { rows := testItems.tail, calls := [] }
      testDevEUI 7 101 "rp" (testItem 1) rfl (by decide) (by decide) (by decide)⟩

/-- C3. If the fetch of the lowest-frame-counter item yields `q` with
`q.RetryCount < 0` (whatever its frame counter and payload), the client is
resolved, the delete succeeds and the client accepts the request, then one
pass of the loop continues with the table from which exactly `q` has been
erased and with exactly one more request: `HandleDownlinkACK` to the resolved
client with the device id, `FCnt = q.FCnt` and `Acknowledged = false`. -/
theorem C3_discard_on_retries_exhausted (env : Env) (s : Store) (devEUI : EUI64)
    (maxPayloadSize : Int) (fCnt : Nat) (routingProfileID : String) (q : DeviceQueueItem)
    (rp : RoutingProfile) (client : Nat)
    (hpk : PrimaryKey s.rows)
    (hq : GetNextDeviceQueueItemForDevEUI env s.rows devEUI = (q, none))
    (hretry : q.RetryCount < 0)
    (hrp : env.GetRoutingProfile routingProfileID = (rp, none))
    (hcl : env.ApplicationServerPoolGet rp.ASID = (client, none))
    (hdel : (DeleteDeviceQueueItem env s.rows q.ID).2 = none)
    (hsend : env.asClientErr s.calls (ASCall.HandleDownlinkACK client
      { DevEUI := devEUI, FCnt := q.FCnt, Acknowledged := false }) = none) :
    loopBody env devEUI maxPayloadSize fCnt routingProfileID s =
      Step.next
        { rows := s.rows.erase q
          calls := s.calls ++ [ASCall.HandleDownlinkACK client
            { DevEUI := devEUI, FCnt := q.FCnt, Acknowledged := false }] } ∧
    q ∈ s.rows ∧ q ∉ s.rows.erase q ∧ (s.rows.erase q).length + 1 = s.rows.length := by
  have hmem : q ∈ s.rows := getNext_mem hq
  have hd : discarded env maxPayloadSize fCnt q := Or.inr (Or.inr hretry)
  have hc : discardCall env client devEUI maxPayloadSize fCnt q =
      some (ASCall.HandleDownlinkACK client
        { DevEUI := devEUI, FCnt := q.FCnt, Acknowledged := false }) := by
    unfold discardCall; rw [if_pos hretry]
  refine ⟨?_, hmem, ?_, ?_⟩
  · rw [loopBody_discard hq hd hrp hcl hdel hc, hsend, filter_id_eq_erase hpk hmem]
  · intro h
    exact ((List.Nodup.mem_erase_iff hpk.nodup).1 h).1 rfl
  · rw [List.length_erase_of_mem hmem]
    have := List.length_pos_of_mem hmem
    omega

/-- C3, witness (the first test case): the items 100 to 104 are queued, the
item 100 has retry-count -1, the expected frame counter is 100 and the
maximum payload size 7. One pass erases the item 100 and sends one nack for
frame counter 100; the whole call returns the item 101 after that single
nack. -/
theorem C3_discard_on_retries_exhausted_witness :
    (loopBody testEnv testDevEUI 7 100 "rp" { rows := testItems, calls := [] } =
      Step.next
        { rows := testItems.erase (testItem 0)
          calls := [] ++ [ASCall.HandleDownlinkACK 1
            { DevEUI := testDevEUI, FCnt := (testItem 0).FCnt, Acknowledged := false }] } ∧
    testItem 0 ∈ testItems ∧ testItem 0 ∉ testItems.erase (testItem 0) ∧
    (testItems.erase (testItem 0)).length + 1 = testItems.length) ∧
    GetNextDeviceQueueItemForDevEUIMaxPayloadSizeAndFCnt testEnv 2
        { rows := testItems, calls := [] } testDevEUI 7 100 "rp" =
      some ({ rows := testItems.tail, calls := [nack 1 testDevEUI 100] }, testItem 1, none) :=
  ⟨C3_discard_on_retries_exhausted testEnv { rows := testItems, calls := [] } testDevEUI 7 100
      "rp" (testItem 0) { RoutingProfileID := "rp", ASID := "as" } 1
      (by decide) rfl (by decide) rfl rfl rfl rfl, rfl⟩

/-- C4. If the fetch of the lowest-frame-counter item yields `q` with
`q.RetryCount ≥ 0` and `q` is disqualified, the client is resolved, the delete
succeeds and the client accepts the request, then one pass of the loop
continues with the table from which exactly `q` has been erased and with
exactly one more request, a `HandleError` to the resolved client carrying the
device id and `q.FCnt`:

* when the gap condition `(q.FCnt - fCnt) mod 2^32 > MaxFCntGap` holds (the
  payload may be too large as well), its type is `DEVICE_QUEUE_ITEM_FCNT` and
  its message "frame-counter exceeds MaxFCntGap";
* otherwise the payload is longer than `maxPayloadSize`, the type is
  `DEVICE_QUEUE_ITEM_SIZE` and the message "payload exceeds max payload size". -/
theorem C4_discard_on_gap_or_size (env : Env) (s : Store) (devEUI : EUI64)
    (maxPayloadSize : Int) (fCnt : Nat) (routingProfileID : String) (q : DeviceQueueItem)
    (rp : RoutingProfile) (client : Nat)
    (hpk : PrimaryKey s.rows)
    (hq : GetNextDeviceQueueItemForDevEUI env s.rows devEUI = (q, none))
    (hretry : 0 ≤ q.RetryCount)
    (hd : discarded env maxPayloadSize fCnt q)
    (hrp : env.GetRoutingProfile routingProfileID = (rp, none))
    (hcl : env.ApplicationServerPoolGet rp.ASID = (client, none))
    (hdel : (DeleteDeviceQueueItem env s.rows q.ID).2 = none)
    (hsend : ∀ c, env.asClientErr s.calls c = none) :
    (u32sub q.FCnt fCnt > env.MaxFCntGap →
      loopBody env devEUI maxPayloadSize fCnt routingProfileID s =
        Step.next
          { rows := s.rows.erase q
            calls := s.calls ++ [ASCall.HandleError client
              { DevEUI := devEUI, Type_ := ErrorType.DEVICE_QUEUE_ITEM_FCNT, FCnt := q.FCnt,
                Error := "frame-counter exceeds MaxFCntGap" }] }) ∧
    (¬ u32sub q.FCnt fCnt > env.MaxFCntGap →
      (q.FRMPayload.length : Int) > maxPayloadSize ∧
      loopBody env devEUI maxPayloadSize fCnt routingProfileID s =
        Step.next
          { rows := s.rows.erase q
            calls := s.calls ++ [ASCall.HandleError client
              { DevEUI := devEUI, Type_ := ErrorType.DEVICE_QUEUE_ITEM_SIZE, FCnt := q.FCnt,
                Error := "payload exceeds max payload size" }] }) ∧
    q ∈ s.rows ∧ q ∉ s.rows.erase q ∧ (s.rows.erase q).length + 1 = s.rows.length := by
  have hmem : q ∈ s.rows := getNext_mem hq
  have hnr : ¬ q.RetryCount < 0 := by omega
  refine ⟨?_, ?_, hmem, ?_, ?_⟩
  · intro hgap
    have hc : discardCall env client devEUI maxPayloadSize fCnt q =
        some (fCntError client devEUI q.FCnt) := by
      unfold discardCall; rw [if_neg hnr, if_pos hgap]; rfl
    rw [loopBody_discard hq hd hrp hcl hdel hc, hsend, filter_id_eq_erase hpk hmem]
    rfl
  · intro hgap
    have hsize : (q.FRMPayload.length : Int) > maxPayloadSize := by
      unfold discarded at hd; tauto
    have hc : discardCall env client devEUI maxPayloadSize fCnt q =
        some (sizeError client devEUI q.FCnt) := by
      unfold discardCall; rw [if_neg hnr, if_neg hgap, if_pos hsize]; rfl
    refine ⟨hsize, ?_⟩
    rw [loopBody_discard hq hd hrp hcl hdel hc, hsend, filter_id_eq_erase hpk hmem]
    rfl
  · intro h
    exact ((List.Nodup.mem_erase_iff hpk.nodup).1 h).1 rfl
  · rw [List.length_erase_of_mem hmem]
    have := List.length_pos_of_mem hmem
    omega

/-- C4, witness: the items 101 to 104 are queued, the expected frame counter
is 102 and the maximum payload size 6, so the item 101 both lags behind the
expected counter (the `uint32` gap is `2^32 - 1`) and is too long; one pass
erases it and sends one frame-counter error. -/
theorem C4_discard_on_gap_or_size_witness :
    discarded testEnv 6 102 (testItem 1) ∧
    u32sub (testItem 1).FCnt 102 > testEnv.MaxFCntGap ∧
    ((testItem 1).FRMPayload.length : Int) > 6 ∧
    loopBody testEnv testDevEUI 6 102 "rp" { rows := testItems.tail, calls := [] } =
      Step.next
        { rows := testItems.tail.erase (testItem 1)
          calls := [] ++ [ASCall.HandleError 1
            { DevEUI := testDevEUI, Type_ := ErrorType.DEVICE_QUEUE_ITEM_FCNT,
              FCnt := (testItem 1).FCnt, Error := "frame-counter exceeds MaxFCntGap" }] } :=
  ⟨by decide, by decide, by decide,
    (C4_discard_on_gap_or_size testEnv { rows := testItems.tail, calls := [] } testDevEUI 6 102
      "rp" (testItem 1) { RoutingProfileID := "rp", ASID := "as" } 1
      (by decide) rfl (by decide) (by decide) rfl rfl rfl (fun _ => rfl)).1 (by decide)⟩

/-! ## The selection engine: the whole loop -/

theorem discardCall_FCnt {env : Env} {client : Nat} {devEUI : EUI64} {maxPayloadSize : Int}
    {fCnt : Nat} {q : DeviceQueueItem} {c : ASCall}
    (h : discardCall env client devEUI maxPayloadSize fCnt q = some c) : c.FCnt = q.FCnt := by
  unfold discardCall at h
  split at h
  · cases h; rfl
  · split at h
    · cases h; rfl
    · split at h
      · cases h; rfl
      · cases h

theorem queueOf_erase {db : Table} (hpk : PrimaryKey db) (devEUI : EUI64)
    (q : DeviceQueueItem) : queueOf (db.erase q) devEUI = (queueOf db devEUI).erase q := by
  unfold queueOf
  rw [List.Nodup.erase_eq_filter hpk.nodup,
    List.Nodup.erase_eq_filter (hpk.nodup.filter _), List.filter_filter, List.filter_filter]
  apply List.filter_congr
  intro r _
  exact Bool.and_comm _ _

theorem filter_other_erase {db : Table} (hpk : PrimaryKey db) {devEUI : EUI64}
    {q : DeviceQueueItem} (hq : q.DevEUI = devEUI) :
    (db.erase q).filter (fun r => r.DevEUI ≠ devEUI) =
      db.filter (fun r => r.DevEUI ≠ devEUI) := by
  rw [List.Nodup.erase_eq_filter hpk.nodup, List.filter_filter]
  apply List.filter_congr
  intro r _
  by_cases h : r = q
  · subst h; simp [hq]
  · simp [h]

theorem filter_other_of_queue_nil {db : Table} {devEUI : EUI64}
    (h : queueOf db devEUI = []) : db.filter (fun r => r.DevEUI ≠ devEUI) = db := by
  unfold queueOf at h
  rw [List.filter_eq_self]
  intro r hr
  have := (List.filter_eq_nil_iff.1 h) r hr
  simpa using this

/-- The loop on a queue of which every item is disqualified, when no
collaborator fails: all the items of the device are discarded, lowest frame
counter first, and the call ends on the empty queue. -/
theorem run_all_discarded (env : Env) (devEUI : EUI64) (maxPayloadSize : Int) (fCnt : Nat)
    (routingProfileID : String) (rp : RoutingProfile) (client : Nat)
    (hrp : env.GetRoutingProfile routingProfileID = (rp, none))
    (hcl : env.ApplicationServerPoolGet rp.ASID = (client, none))
    (hquery : ∀ db, env.queryErr db = none)
    (hexec : ∀ db, env.execErr db = none)
    (hra : ∀ db, env.rowsAffectedErr db = none)
    (hsend : ∀ calls c, env.asClientErr calls c = none) :
    ∀ (n : Nat) (s : Store), PrimaryKey s.rows → (queueOf s.rows devEUI).length = n →
      (∀ q ∈ queueOf s.rows devEUI, discarded env maxPayloadSize fCnt q) →
      ∀ fuel, n < fuel → ∃ emitted : List ASCall,
        GetNextDeviceQueueItemForDevEUIMaxPayloadSizeAndFCnt env fuel s devEUI maxPayloadSize
            fCnt routingProfileID =
          some ({ rows := s.rows.filter (fun r => r.DevEUI ≠ devEUI),
                  calls := s.calls ++ emitted }, {},
            some (Error.wrap Error.ErrDoesNotExist "get next device-queue item error")) ∧
        List.Perm (emitted.map some)
          ((queueOf s.rows devEUI).map (discardCall env client devEUI maxPayloadSize fCnt)) ∧
        (emitted.map ASCall.FCnt).Sorted (· ≤ ·) := by
  intro n
  induction n with
  | zero =>
    intro s _ hlen _ fuel hfuel
    have hnil : queueOf s.rows devEUI = [] := List.length_eq_zero.1 hlen
    obtain ⟨k, rfl⟩ : ∃ k, fuel = k + 1 := ⟨fuel - 1, by omega⟩
    refine ⟨[], ?_, ?_, ?_⟩
    · have hf := filter_other_of_queue_nil hnil
      simp only [decide_not] at hf
      rw [run_succ]
      simp [loopBody, GetNextDeviceQueueItemForDevEUI, hquery, hnil, firstByFCnt,
        handlePSQLError, errorsWrap, hf]
    · simp [hnil]
    · simp
  | succ n ih =>
    intro s hpk hlen hall fuel hfuel
    obtain ⟨k, rfl⟩ : ∃ k, fuel = k + 1 := ⟨fuel - 1, by omega⟩
    have hne : firstByFCnt (queueOf s.rows devEUI) ≠ none := by
      intro h
      rw [firstByFCnt_eq_none h] at hlen
      simp at hlen
    obtain ⟨q, hfirst⟩ := Option.ne_none_iff_exists'.1 hne
    have hq : GetNextDeviceQueueItemForDevEUI env s.rows devEUI = (q, none) := by
      simp [GetNextDeviceQueueItemForDevEUI, hquery, hfirst]
    have hqmem : q ∈ queueOf s.rows devEUI := firstByFCnt_mem hfirst
    have hmem : q ∈ s.rows := (mem_queueOf.1 hqmem).1
    have hdev : q.DevEUI = devEUI := (mem_queueOf.1 hqmem).2
    have hd := hall q hqmem
    obtain ⟨c, hc, hcf⟩ := discardCall_of_discarded client devEUI hd
    have hdel : (DeleteDeviceQueueItem env s.rows q.ID).2 = none := by
      rw [delete_of_mem (hexec _) (hra _) hmem]
    have hstep := loopBody_discard hq hd hrp hcl hdel hc
    rw [hsend, filter_id_eq_erase hpk hmem] at hstep
    have hqueue := queueOf_erase hpk devEUI q
    have hlen' : (queueOf (s.rows.erase q) devEUI).length = n := by
      rw [hqueue, List.length_erase_of_mem hqmem, hlen]; rfl
    have hall' : ∀ x ∈ queueOf (s.rows.erase q) devEUI, discarded env maxPayloadSize fCnt x := by
      intro x hx
      rw [hqueue] at hx
      exact hall x (List.mem_of_mem_erase hx)
    obtain ⟨em, hrun, hperm, hsorted⟩ :=
      ih { rows := s.rows.erase q, calls := s.calls ++ [c] } (hpk.erase q) hlen' hall' k
        (by omega)
    refine ⟨c :: em, ?_, ?_, ?_⟩
    · rw [run_succ, hstep]
      simp only
      rw [hrun]
      have hf := filter_other_erase hpk hdev
      simp only [decide_not] at hf
      simp [hf]
    · have h1 : List.Perm (queueOf s.rows devEUI) (q :: (queueOf s.rows devEUI).erase q) :=
        List.perm_cons_erase hqmem
      have h2 := h1.map (discardCall env client devEUI maxPayloadSize fCnt)
      refine List.Perm.trans ?_ h2.symm
      simp only [List.map_cons, hc]
      rw [← hqueue]
      exact List.Perm.cons _ hperm
    · simp only [List.map_cons, List.sorted_cons]
      refine ⟨?_, hsorted⟩
      intro b hb
      obtain ⟨c', hc'mem, rfl⟩ := List.mem_map.1 hb
      have hsome : some c' ∈ em.map some := List.mem_map.2 ⟨c', hc'mem, rfl⟩
      have hin := hperm.mem_iff.1 hsome
      obtain ⟨x, hx, hxc⟩ := List.mem_map.1 hin
      rw [hqueue] at hx
      rw [discardCall_FCnt hxc, hcf]
      exact firstByFCnt_le hfirst x (List.mem_of_mem_erase hx)

/-- C5. Let the device's queue hold `n` items (`n = 0` is the empty queue),
every one of them disqualified, and let the client resolution, the database
and the client never fail. Then the call, allowed more than `n` passes,
returns the zero item and an error whose cause is `ErrDoesNotExist`; in the
table afterwards the device has no row and the rows of other devices are as
before; and exactly `n` requests have been sent, one per item of the queue
(the request the discard of that item calls for), in ascending order of
frame counter. -/
theorem C5_queue_exhaustion_not_found (env : Env) (s : Store) (devEUI : EUI64)
    (maxPayloadSize : Int) (fCnt : Nat) (routingProfileID : String) (rp : RoutingProfile)
    (client : Nat) (fuel : Nat)
    (hpk : PrimaryKey s.rows)
    (hall : ∀ q ∈ queueOf s.rows devEUI, discarded env maxPayloadSize fCnt q)
    (hrp : env.GetRoutingProfile routingProfileID = (rp, none))
    (hcl : env.ApplicationServerPoolGet rp.ASID = (client, none))
    (hquery : ∀ db, env.queryErr db = none)
    (hexec : ∀ db, env.execErr db = none)
    (hra : ∀ db, env.rowsAffectedErr db = none)
    (hsend : ∀ calls c, env.asClientErr calls c = none)
    (hfuel : (queueOf s.rows devEUI).length < fuel) :
    ∃ (s' : Store) (e : Error) (emitted : List ASCall),
      GetNextDeviceQueueItemForDevEUIMaxPayloadSizeAndFCnt env fuel s devEUI maxPayloadSize
          fCnt routingProfileID = some (s', {}, some e) ∧
      e.Cause = Error.ErrDoesNotExist ∧
      queueOf s'.rows devEUI = [] ∧
      s'.rows = s.rows.filter (fun r => r.DevEUI ≠ devEUI) ∧
      s'.calls = s.calls ++ emitted ∧
      emitted.length = (queueOf s.rows devEUI).length ∧
      List.Perm (emitted.map some)
        ((queueOf s.rows devEUI).map (discardCall env client devEUI maxPayloadSize fCnt)) ∧
      (emitted.map ASCall.FCnt).Sorted (· ≤ ·) := by
  obtain ⟨emitted, hrun, hperm, hsorted⟩ :=
    run_all_discarded env devEUI maxPayloadSize fCnt routingProfileID rp client hrp hcl hquery
      hexec hra hsend _ s hpk rfl hall fuel hfuel
  refine ⟨_, _, emitted, hrun, rfl, ?_, rfl, rfl, ?_, hperm, hsorted⟩
  · unfold queueOf
    rw [List.filter_filter, List.filter_eq_nil_iff]
    intro r _
    simp
  · have := hperm.length_eq
    simpa using this

/-- C5, witness (the test case in which all items are discarded): the items
100 to 104 have payload lengths 7, 7, 6, 5, 4 and the item 100 has retry-count
-1; with maximum payload size 3 and expected frame counter 101 every item is
disqualified. The call sends the nack for 100 and the four size errors for
101 to 104, in this order, leaves the queue empty and fails with a wrapped
`ErrDoesNotExist`. -/
theorem C5_queue_exhaustion_not_found_witness :
    PrimaryKey testItems ∧
    (∀ q ∈ queueOf testItems testDevEUI, discarded testEnv 3 101 q) ∧
    (queueOf testItems testDevEUI).length < 6 ∧
    (∃ (s' : Store) (e : Error) (emitted : List ASCall),
      GetNextDeviceQueueItemForDevEUIMaxPayloadSizeAndFCnt testEnv 6
          { rows := testItems, calls := [] } testDevEUI 3 101 "rp" = some (s', {}, some e) ∧
      e.Cause = Error.ErrDoesNotExist ∧
      queueOf s'.rows testDevEUI = [] ∧
      s'.rows = testItems.filter (fun r => r.DevEUI ≠ testDevEUI) ∧
      s'.calls = [] ++ emitted ∧
      emitted.length = (queueOf testItems testDevEUI).length ∧
      List.Perm (emitted.map some)
        ((queueOf testItems testDevEUI).map (discardCall testEnv 1 testDevEUI 3 101)) ∧
      (emitted.map ASCall.FCnt).Sorted (· ≤ ·)) ∧
    GetNextDeviceQueueItemForDevEUIMaxPayloadSizeAndFCnt testEnv 6
        { rows := testItems, calls := [] } testDevEUI 3 101 "rp" =
      some ({ rows := [],
              calls := [nack 1 testDevEUI 100, sizeError 1 testDevEUI 101,
                sizeError 1 testDevEUI 102, sizeError 1 testDevEUI 103,
                sizeError 1 testDevEUI 104] }, {},
        some (Error.wrap Error.ErrDoesNotExist "get next device-queue item error")) :=
  ⟨by decide, by decide, by decide,
    C5_queue_exhaustion_not_found testEnv { rows := testItems, calls := [] } testDevEUI 3 101
      "rp" { RoutingProfileID := "rp", ASID := "as" } 1 6 (by decide) (by decide) rfl rfl
      (fun _ => rfl) (fun _ => rfl) (fun _ => rfl) (fun _ _ => rfl) (by decide),
    rfl⟩

/-! ## Inversion of one pass -/

/-- A pass that returns without error took the last `return`: the fetched item
is not disqualified, and the state is untouched. -/
theorem loopBody_ret_ok {env : Env} {devEUI : EUI64} {maxPayloadSize : Int} {fCnt : Nat}
    {routingProfileID : String} {s s' : Store} {q : DeviceQueueItem}
    (h : loopBody env devEUI maxPayloadSize fCnt routingProfileID s = Step.ret s' q none) :
    s' = s ∧ GetNextDeviceQueueItemForDevEUI env s.rows devEUI = (q, none) ∧
      ¬ discarded env maxPayloadSize fCnt q := by
  unfold loopBody at h
  split at h
  · simp [errorsWrap] at h
  · rename_i qi hqi
    split at h
    · split at h
      · simp [errorsWrap] at h
      · split at h
        · simp [errorsWrap] at h
        · split at h
          · simp [errorsWrap] at h
          · split at h
            · simp at h
            · split at h
              · simp [errorsWrap] at h
              · simp at h
    · rename_i hk
      simp only [Step.ret.injEq, and_true] at h
      obtain ⟨rfl, rfl⟩ := h
      exact ⟨rfl, hqi, hk⟩

/-- A pass that continues has fetched a disqualified item and deleted the rows
with its id; it has sent at most one request. -/
theorem loopBody_next {env : Env} {devEUI : EUI64} {maxPayloadSize : Int} {fCnt : Nat}
    {routingProfileID : String} {s s' : Store}
    (h : loopBody env devEUI maxPayloadSize fCnt routingProfileID s = Step.next s') :
    ∃ q, GetNextDeviceQueueItemForDevEUI env s.rows devEUI = (q, none) ∧
      discarded env maxPayloadSize fCnt q ∧
      s'.rows = s.rows.filter (fun r => r.ID ≠ q.ID) ∧
      (DeleteDeviceQueueItem env s.rows q.ID).2 = none := by
  unfold loopBody at h
  split at h
  · simp at h
  · rename_i qi hqi
    split at h
    · rename_i hd
      split at h
      · simp at h
      · split at h
        · simp at h
        · split at h
          · simp at h
          · rename_i db hdel
            have hdel2 : (DeleteDeviceQueueItem env s.rows qi.ID).2 = none := by rw [hdel]
            have hdb := delete_ok hdel2
            rw [hdel] at hdb
            simp only [Prod.mk.injEq, and_true] at hdb
            split at h
            · simp only [Step.next.injEq] at h
              subst h
              exact ⟨qi, hqi, hd, hdb, hdel2⟩
            · split at h
              · simp at h
              · simp only [Step.next.injEq] at h
                subst h
                exact ⟨qi, hqi, hd, hdb, hdel2⟩
    · simp at h

/-! ## Order of the items returned -/

/-- A successful call ends on a pass that fetches the returned item from the
final table and finds it not disqualified; the final table is what is left of
the initial one. -/
theorem run_ok_inv {env : Env} {devEUI : EUI64} {maxPayloadSize : Int} {fCnt : Nat}
    {routingProfileID : String} :
    ∀ (fuel : Nat) (s s' : Store) (q : DeviceQueueItem),
      GetNextDeviceQueueItemForDevEUIMaxPayloadSizeAndFCnt env fuel s devEUI maxPayloadSize
          fCnt routingProfileID = some (s', q, none) →
      GetNextDeviceQueueItemForDevEUI env s'.rows devEUI = (q, none) ∧
        ¬ discarded env maxPayloadSize fCnt q ∧ s'.rows.Sublist s.rows := by
  intro fuel
  induction fuel with
  | zero =>
    intro s s' q h
    simp [GetNextDeviceQueueItemForDevEUIMaxPayloadSizeAndFCnt] at h
  | succ k ih =>
    intro s s' q h
    rw [run_succ] at h
    cases hstep : loopBody env devEUI maxPayloadSize fCnt routingProfileID s with
    | ret s1 qi err =>
      rw [hstep] at h
      simp only [Option.some.injEq, Prod.mk.injEq] at h
      obtain ⟨rfl, rfl, rfl⟩ := h
      obtain ⟨rfl, hq, hk⟩ := loopBody_ret_ok hstep
      exact ⟨hq, hk, List.Sublist.refl _⟩
    | next s1 =>
      rw [hstep] at h
      obtain ⟨q0, _, _, hrows, _⟩ := loopBody_next hstep
      obtain ⟨hq, hk, hsub⟩ := ih s1 s' q h
      refine ⟨hq, hk, hsub.trans ?_⟩
      rw [hrows]
      exact List.filter_sublist _

theorem queueOf_sublist {db db' : Table} (h : db'.Sublist db) (devEUI : EUI64) :
    (queueOf db' devEUI).Sublist (queueOf db devEUI) :=
  h.filter _

/-- Under the primary key and with distinct frame counters in the device's
queue, every row a successful call removed belongs to the device and has a
frame counter below that of the item returned. -/
theorem run_ok_removed {env : Env} {devEUI : EUI64} {maxPayloadSize : Int} {fCnt : Nat}
    {routingProfileID : String} :
    ∀ (fuel : Nat) (s s' : Store) (q : DeviceQueueItem), PrimaryKey s.rows →
      ((queueOf s.rows devEUI).map (fun r => r.FCnt)).Nodup →
      GetNextDeviceQueueItemForDevEUIMaxPayloadSizeAndFCnt env fuel s devEUI maxPayloadSize
          fCnt routingProfileID = some (s', q, none) →
      ∀ r ∈ s.rows, r ∉ s'.rows → r.DevEUI = devEUI ∧ r.FCnt < q.FCnt := by
  intro fuel
  induction fuel with
  | zero =>
    intro s s' q _ _ h
    simp [GetNextDeviceQueueItemForDevEUIMaxPayloadSizeAndFCnt] at h
  | succ k ih =>
    intro s s' q hpk hdis h r hr hr'
    rw [run_succ] at h
    cases hstep : loopBody env devEUI maxPayloadSize fCnt routingProfileID s with
    | ret s1 qi err =>
      rw [hstep] at h
      simp only [Option.some.injEq, Prod.mk.injEq] at h
      obtain ⟨rfl, rfl, rfl⟩ := h
      obtain ⟨rfl, _, _⟩ := loopBody_ret_ok hstep
      exact absurd hr hr'
    | next s1 =>
      rw [hstep] at h
      obtain ⟨q0, hq0, _, hrows, _⟩ := loopBody_next hstep
      have hq0mem : q0 ∈ s.rows := getNext_mem hq0
      rw [filter_id_eq_erase hpk hq0mem] at hrows
      obtain ⟨hq, _, hsub⟩ := run_ok_inv k s1 s' q h
      have hpk1 : PrimaryKey s1.rows := by rw [hrows]; exact hpk.erase q0
      have hdis1 : ((queueOf s1.rows devEUI).map (fun r => r.FCnt)).Nodup := by
        rw [hrows]
        exact List.Nodup.sublist ((queueOf_sublist (List.erase_sublist q0 s.rows) devEUI).map _)
          hdis
      by_cases hrq : r = q0
      · subst hrq
        have hqq : q ∈ queueOf s'.rows devEUI := getNext_mem_queue hq
        have hq1 : q ∈ s1.rows := hsub.subset (mem_queueOf.1 hqq).1
        rw [hrows] at hq1
        have hne : q ≠ r := ((List.Nodup.mem_erase_iff hpk.nodup).1 hq1).1
        have hqs : q ∈ queueOf s.rows devEUI :=
          mem_queueOf.2 ⟨List.mem_of_mem_erase hq1, (mem_queueOf.1 hqq).2⟩
        have hle : r.FCnt ≤ q.FCnt := firstByFCnt_le (getNext_ok hq0) q hqs
        have hneq : r.FCnt ≠ q.FCnt := fun he =>
          hne (List.inj_on_of_nodup_map hdis hqs (getNext_mem_queue hq0) he.symm)
        exact ⟨(mem_queueOf.1 (getNext_mem_queue hq0)).2, lt_of_le_of_ne hle hneq⟩
      · have hr1 : r ∈ s1.rows := by
          rw [hrows]
          exact (List.mem_erase_of_ne hrq).2 hr
        exact ih s1 s' q hpk1 hdis1 h r hr1 hr'

/-- The items a sequence of successful calls returns all come from the
device's queue at the start, and their frame counters never decrease. -/
theorem runCalls_sorted (env : Env) (devEUI : EUI64) :
    ∀ (cs : List Call) (fuel : Nat) (s : Store) (qis : List DeviceQueueItem),
      runCalls env fuel devEUI cs s = some qis →
      (∀ x ∈ qis, x ∈ queueOf s.rows devEUI) ∧
        (qis.map (fun r => r.FCnt)).Sorted (· ≤ ·) := by
  intro cs
  induction cs with
  | nil =>
    intro fuel s qis h
    simp only [runCalls, Option.some.injEq] at h
    subst h
    simp
  | cons c cs ih =>
    intro fuel s qis h
    unfold runCalls at h
    split at h
    · rename_i s' qi hrun
      obtain ⟨qis', hrest, rfl⟩ := Option.map_eq_some'.1 h
      obtain ⟨hq, _, hsub⟩ := run_ok_inv _ _ _ _ hrun
      obtain ⟨hmem, hsorted⟩ := ih fuel s' qis' hrest
      have hsub' : s'.rows.Sublist s.rows := hsub.trans (List.filter_sublist _)
      refine ⟨?_, ?_⟩
      · intro x hx
        rcases List.mem_cons.1 hx with rfl | hx
        · exact (queueOf_sublist hsub' devEUI).subset (getNext_mem_queue hq)
        · exact (queueOf_sublist hsub' devEUI).subset (hmem x hx)
      · simp only [List.map_cons, List.sorted_cons]
        refine ⟨?_, hsorted⟩
        intro b hb
        obtain ⟨x, hx, rfl⟩ := List.mem_map.1 hb
        exact firstByFCnt_le (getNext_ok hq) x (hmem x hx)
    · cases h

/-- C6. For a table under its primary key in which the device's items have
pairwise distinct frame counters: whenever the call succeeds with item `q`,
`q` is in the device's queue afterwards and has the least frame counter
there; the table afterwards is a sublist of the one before, and every row
removed is a row of the device with a frame counter strictly below `q.FCnt`;
and for every sequence of further successful calls, run from the state the
call left, before each of which rows are only removed, the frame counters of
the items returned, `q` first, never decrease. -/
theorem C6_returned_in_frame_counter_order (env : Env) (fuel : Nat) (s s' : Store)
    (devEUI : EUI64) (maxPayloadSize : Int) (fCnt : Nat) (routingProfileID : String)
    (q : DeviceQueueItem)
    (hpk : PrimaryKey s.rows)
    (hdistinct : ((queueOf s.rows devEUI).map (fun r => r.FCnt)).Nodup)
    (hrun : GetNextDeviceQueueItemForDevEUIMaxPayloadSizeAndFCnt env fuel s devEUI
      maxPayloadSize fCnt routingProfileID = some (s', q, none)) :
    q ∈ queueOf s'.rows devEUI ∧
    (∀ x ∈ queueOf s'.rows devEUI, q.FCnt ≤ x.FCnt) ∧
    s'.rows.Sublist s.rows ∧
    (∀ r ∈ s.rows, r ∉ s'.rows → r.DevEUI = devEUI ∧ r.FCnt < q.FCnt) ∧
    (∀ (fuel' : Nat) (cs : List Call) (qis : List DeviceQueueItem),
      runCalls env fuel' devEUI cs s' = some qis →
      ((q :: qis).map (fun r => r.FCnt)).Sorted (· ≤ ·)) := by
  obtain ⟨hq, _, hsub⟩ := run_ok_inv fuel s s' q hrun
  refine ⟨getNext_mem_queue hq, firstByFCnt_le (getNext_ok hq), hsub,
    run_ok_removed fuel s s' q hpk hdistinct hrun, ?_⟩
  intro fuel' cs qis hcs
  obtain ⟨hmem, hsorted⟩ := runCalls_sorted env devEUI cs fuel' s' qis hcs
  simp only [List.map_cons, List.sorted_cons]
  refine ⟨?_, hsorted⟩
  intro b hb
  obtain ⟨x, hx, rfl⟩ := List.mem_map.1 hb
  exact firstByFCnt_le (getNext_ok hq) x (hmem x hx)

/-- C6, witness (the test case with maximum payload size 5 and expected frame
counter 100): the items 100, 101 and 102 are removed, the item 103 is
returned and is the lowest of the two items left. -/
theorem C6_returned_in_frame_counter_order_witness :
    PrimaryKey testItems ∧
    ((queueOf testItems testDevEUI).map (fun r => r.FCnt)).Nodup ∧
    GetNextDeviceQueueItemForDevEUIMaxPayloadSizeAndFCnt testEnv 5
        { rows := testItems, calls := [] } testDevEUI 5 100 "rp" =
      some ({ rows := testItems.drop 3,
              calls := [nack 1 testDevEUI 100, sizeError 1 testDevEUI 101,
                sizeError 1 testDevEUI 102] }, testItem 3, none) ∧
    (testItem 3 ∈ queueOf (testItems.drop 3) testDevEUI ∧
    (∀ x ∈ queueOf (testItems.drop 3) testDevEUI, (testItem 3).FCnt ≤ x.FCnt) ∧
    (testItems.drop 3).Sublist testItems ∧
    (∀ r ∈ testItems, r ∉ testItems.drop 3 →
      r.DevEUI = testDevEUI ∧ r.FCnt < (testItem 3).FCnt) ∧
    (∀ (fuel' : Nat) (cs : List Call) (qis : List DeviceQueueItem),
      runCalls testEnv fuel' testDevEUI cs
        { rows := testItems.drop 3,
          calls := [nack 1 testDevEUI 100, sizeError 1 testDevEUI 101,
            sizeError 1 testDevEUI 102] } = some qis →
      ((testItem 3 :: qis).map (fun r => r.FCnt)).Sorted (· ≤ ·))) :=
  ⟨by decide, by decide, rfl,
    C6_returned_in_frame_counter_order testEnv 5 { rows := testItems, calls := [] }
      { rows := testItems.drop 3,
        calls := [nack 1 testDevEUI 100, sizeError 1 testDevEUI 101,
          sizeError 1 testDevEUI 102] }
      testDevEUI 5 100 "rp" (testItem 3) (by decide) (by decide) rfl⟩

/-- C7. If the call succeeds on state `s` with item `q` and leaves state
`s'`, then the call with the same arguments on `s'` (with any positive number
of passes allowed) succeeds with the same item `q` and leaves `s'` as it is:
no row is deleted and no request is sent. -/
theorem C7_repeated_selection_idempotent (env : Env) (fuel fuel' : Nat) (s s' : Store)
    (devEUI : EUI64) (maxPayloadSize : Int) (fCnt : Nat) (routingProfileID : String)
    (q : DeviceQueueItem)
    (hrun : GetNextDeviceQueueItemForDevEUIMaxPayloadSizeAndFCnt env fuel s devEUI
      maxPayloadSize fCnt routingProfileID = some (s', q, none)) :
    GetNextDeviceQueueItemForDevEUIMaxPayloadSizeAndFCnt env (fuel' + 1) s' devEUI
      maxPayloadSize fCnt routingProfileID = some (s', q, none) := by
  obtain ⟨hq, hk, _⟩ := run_ok_inv fuel s s' q hrun
  rw [run_succ, loopBody_keep hq hk]

/-- C7, witness (the test case with maximum payload size 6 and expected frame
counter 100): the first call discards the items 100 and 101 and returns the
item 102; the second call returns the item 102 again and changes nothing. -/
theorem C7_repeated_selection_idempotent_witness :
    GetNextDeviceQueueItemForDevEUIMaxPayloadSizeAndFCnt testEnv 3
        { rows := testItems, calls := [] } testDevEUI 6 100 "rp" =
      some ({ rows := testItems.drop 2,
              calls := [nack 1 testDevEUI 100, sizeError 1 testDevEUI 101] },
        testItem 2, none) ∧
    GetNextDeviceQueueItemForDevEUIMaxPayloadSizeAndFCnt testEnv (0 + 1)
        { rows := testItems.drop 2,
          calls := [nack 1 testDevEUI 100, sizeError 1 testDevEUI 101] }
        testDevEUI 6 100 "rp" =
      some ({ rows := testItems.drop 2,
              calls := [nack 1 testDevEUI 100, sizeError 1 testDevEUI 101] },
        testItem 2, none) :=
  ⟨rfl, C7_repeated_selection_idempotent testEnv 3 0 { rows := testItems, calls := [] }
    { rows := testItems.drop 2, calls := [nack 1 testDevEUI 100, sizeError 1 testDevEUI 101] }
    testDevEUI 6 100 "rp" (testItem 2) rfl⟩

/-! ## Failure of a notification -/

/-- C8. If the fetch of the lowest-frame-counter item yields a disqualified
`q`, the client is resolved, the delete succeeds, and the client answers the
request `c` sent for `q` (the `HandleDownlinkACK` or `HandleError` the discard
calls for) with an error `e`, then the call returns in its first pass, with
the zero item and the non-nil error that wraps `e`; the table afterwards is
the initial one with exactly `q` erased, and `c` is the only request sent. -/
theorem C8_notification_failure_aborts (env : Env) (fuel : Nat) (s : Store) (devEUI : EUI64)
    (maxPayloadSize : Int) (fCnt : Nat) (routingProfileID : String) (q : DeviceQueueItem)
    (rp : RoutingProfile) (client : Nat) (c : ASCall) (e : Error)
    (hpk : PrimaryKey s.rows)
    (hq : GetNextDeviceQueueItemForDevEUI env s.rows devEUI = (q, none))
    (hd : discarded env maxPayloadSize fCnt q)
    (hrp : env.GetRoutingProfile routingProfileID = (rp, none))
    (hcl : env.ApplicationServerPoolGet rp.ASID = (client, none))
    (hdel : (DeleteDeviceQueueItem env s.rows q.ID).2 = none)
    (hc : discardCall env client devEUI maxPayloadSize fCnt q = some c)
    (hfail : env.asClientErr s.calls c = some e) :
    GetNextDeviceQueueItemForDevEUIMaxPayloadSizeAndFCnt env (fuel + 1) s devEUI maxPayloadSize
        fCnt routingProfileID =
      some ({ rows := s.rows.erase q, calls := s.calls ++ [c] }, {},
        some (Error.wrap e "application-server client error")) ∧
    q ∈ s.rows ∧ q ∉ s.rows.erase q ∧ c.FCnt = q.FCnt := by
  have hmem : q ∈ s.rows := getNext_mem hq
  refine ⟨?_, hmem, ?_, discardCall_FCnt hc⟩
  · rw [run_succ, loopBody_discard hq hd hrp hcl hdel hc, hfail, filter_id_eq_erase hpk hmem]
  · intro h
    exact ((List.Nodup.mem_erase_iff hpk.nodup).1 h).1 rfl

/-- C8, witness: the items 100 to 104 are queued, the item 100 has
retry-count -1 and the client fails every request. The call deletes the item
100, sends the nack for it, and returns the wrapped client error and the zero
item; the items 101 to 104 are untouched. -/
theorem C8_notification_failure_aborts_witness :
    discarded testEnvClientDown 7 100 (testItem 0) ∧
    GetNextDeviceQueueItemForDevEUIMaxPayloadSizeAndFCnt testEnvClientDown (4 + 1)
        { rows := testItems, calls := [] } testDevEUI 7 100 "rp" =
      some ({ rows := testItems.erase (testItem 0), calls := [] ++ [nack 1 testDevEUI 100] },
        {}, some (Error.wrap (Error.new "rpc error: unavailable")
          "application-server client error")) ∧
    testItem 0 ∈ testItems ∧ testItem 0 ∉ testItems.erase (testItem 0) ∧
    (nack 1 testDevEUI 100).FCnt = (testItem 0).FCnt :=
  ⟨by decide,
    C8_notification_failure_aborts testEnvClientDown 4 { rows := testItems, calls := [] }
      testDevEUI 7 100 "rp" (testItem 0) { RoutingProfileID := "rp", ASID := "as" } 1
      (nack 1 testDevEUI 100) (Error.new "rpc error: unavailable")
      (by decide) rfl (by decide) rfl rfl rfl rfl rfl⟩

/-! ## Join: creation of the session -/

/-- C9. If the join answer carries a non-empty `NwkSKey.KEKLabel`,
`createNodeSession` returns the error "NwkSKey KEKLabel unsupported" and
leaves the context (its `DeviceSession` included) and the session store as
they were: no session is saved and no MAC-command queue is flushed. This
holds whether or not the join-request payload is set. -/
theorem C9_wrapped_session_key_fails (env : JoinEnv) (ctx : JoinRequestContext)
    (calls : List RedisCall)
    (hkek : ctx.JoinAnsPayload.NwkSKey.KEKLabel ≠ "") :
    createNodeSession env ctx calls =
      some (ctx, calls, some (Error.new "NwkSKey KEKLabel unsupported")) := by
  unfold createNodeSession
  rw [if_pos hkek]

/-- C9, witness: a join answer with the label "kek-1". -/
theorem C9_wrapped_session_key_fails_witness :
    joinCtxWrappedKey.JoinAnsPayload.NwkSKey.KEKLabel ≠ "" ∧
    createNodeSession joinEnv joinCtxWrappedKey [] =
      some (joinCtxWrappedKey, [], some (Error.new "NwkSKey KEKLabel unsupported")) :=
  ⟨by decide, C9_wrapped_session_key_fails joinEnv joinCtxWrappedKey [] (by decide)⟩

/-- C10. If the `KEKLabel` is empty, the join-request payload `jr` is set, and
saving the session and flushing the MAC-command queue succeed, then
`createNodeSession` returns `nil`; it makes exactly two calls on the session
store, `SaveDeviceSession ds` and then `FlushQueue` for the device of `jr`,
and the context afterwards is the one before with `DeviceSession := ds`, where
`ds` is the session written out below: frame counters 0, RX window RX1, the
allocated address, `DevEUI` and `JoinEUI` (the `AppEUI`) of the join request,
the AES key of the join answer, the three profile ids of the device, the
receive-metadata of the uplink and `DRMax` of the service profile. The same
`ds` results whatever session the context held before. -/
theorem C10_session_construction (env : JoinEnv) (ctx : JoinRequestContext)
    (calls : List RedisCall) (jr : JoinRequestPayload)
    (hkek : ctx.JoinAnsPayload.NwkSKey.KEKLabel = "")
    (hjr : ctx.JoinRequestPayload = some jr)
    (hsave : ∀ ds, env.SaveDeviceSessionErr calls ds = none)
    (hflush : ∀ cs, env.FlushQueueErr cs jr.DevEUI = none) :
    ∃ ds : DeviceSession,
      createNodeSession env ctx calls =
        some ({ ctx with DeviceSession := ds },
          calls ++ [RedisCall.SaveDeviceSession ds, RedisCall.FlushQueue jr.DevEUI], none) ∧
      ds =
        { DeviceProfileID := ctx.Device.DeviceProfileID
          ServiceProfileID := ctx.Device.ServiceProfileID
          RoutingProfileID := ctx.Device.RoutingProfileID
          DevAddr := ctx.DevAddr
          JoinEUI := jr.AppEUI
          DevEUI := jr.DevEUI
          NwkSKey := ctx.JoinAnsPayload.NwkSKey.AESKey
          FCntUp := 0
          FCntDown := 0
          RXWindow := RXWindow.RX1
          RXDelay := uint8 env.RX1Delay
          RX1DROffset := uint8 env.RX1DROffset
          RX2DR := uint8 env.RX2DR
          EnabledChannels := env.UplinkChannels
          LastRXInfoSet := ctx.RXPacket.RXInfoSet
          MaxSupportedDR := ctx.ServiceProfile.DRMax } ∧
      ∀ prev : DeviceSession,
        createNodeSession env { ctx with DeviceSession := prev } calls =
          some ({ ctx with DeviceSession := ds },
            calls ++ [RedisCall.SaveDeviceSession ds, RedisCall.FlushQueue jr.DevEUI],
            none) := by
  refine ⟨_, ?_, rfl, ?_⟩
  · simp [createNodeSession, hkek, hjr, hsave, hflush]
  · intro prev
    simp [createNodeSession, hkek, hjr, hsave, hflush]

/-- C10, witness: `joinCtxReady` holds a session with frame counters 17 and 9
and RX window RX2 from an earlier activation; the session created has frame
counters 0 and RX window RX1. -/
theorem C10_session_construction_witness :
    joinCtxReady.JoinAnsPayload.NwkSKey.KEKLabel = "" ∧
    (∃ ds : DeviceSession,
      createNodeSession joinEnv joinCtxReady [] =
        some ({ joinCtxReady with DeviceSession := ds },
          [] ++ [RedisCall.SaveDeviceSession ds, RedisCall.FlushQueue testDevEUI], none) ∧
      ds =
        { DeviceProfileID := "dp"
          ServiceProfileID := "sp"
          RoutingProfileID := "rp"
          DevAddr := [1, 2, 3, 4]
          JoinEUI := [8, 7, 6, 5, 4, 3, 2, 1]
          DevEUI := testDevEUI
          NwkSKey := List.replicate 16 7
          FCntUp := 0
          FCntDown := 0
          RXWindow := RXWindow.RX1
          RXDelay := 1
          RX1DROffset := 0
          RX2DR := 0
          EnabledChannels := [0, 1, 2]
          LastRXInfoSet := [{ MAC := [1, 1, 1, 1, 1, 1, 1, 1] }]
          MaxSupportedDR := 5 } ∧
      ∀ prev : DeviceSession,
        createNodeSession joinEnv { joinCtxReady with DeviceSession := prev } [] =
          some ({ joinCtxReady with DeviceSession := ds },
            [] ++ [RedisCall.SaveDeviceSession ds, RedisCall.FlushQueue testDevEUI],
            none)) :=
  ⟨by decide,
    C10_session_construction joinEnv joinCtxReady []
      { AppEUI := [8, 7, 6, 5, 4, 3, 2, 1], DevEUI := testDevEUI, DevNonce := [1, 2] }
      (by decide) rfl (fun _ => rfl) (fun _ => rfl)⟩

/-! ## Queue store: NotFound -/

theorem filter_id_of_absent {db : Table} {id : Int} (h : ∀ r ∈ db, r.ID ≠ id) :
    db.filter (fun r => r.ID ≠ id) = db := by
  rw [List.filter_eq_self]
  intro r hr
  simpa using h r hr

theorem map_update_of_absent {db : Table} {id : Int} (f : DeviceQueueItem → DeviceQueueItem)
    (h : ∀ r ∈ db, r.ID ≠ id) : db.map (fun r => if r.ID = id then f r else r) = db := by
  conv_rhs => rw [← List.map_id db]
  apply List.map_congr_left
  intro r hr
  simp [h r hr]

/-- Under the primary key, the rows with the id of a stored row `q` are `q`
alone. -/
theorem id_eq_iff {db : Table} {q r : DeviceQueueItem} (hpk : PrimaryKey db) (hq : q ∈ db)
    (hr : r ∈ db) : r.ID = q.ID ↔ r = q :=
  ⟨fun h => List.inj_on_of_nodup_map hpk hr hq h, fun h => by rw [h]⟩

/-- C11. When the driver does not fail on the table:

* for an id that no row has, `DeleteDeviceQueueItem` and
  `UpdateDeviceQueueItem` return `ErrDoesNotExist` and the table is unchanged;
* for the id of a stored row `q` (the table being under its primary key),
  `DeleteDeviceQueueItem` returns `nil` and the table afterwards is the table
  with `q` erased, every other row as before;
* for an item `qi` with the id of a stored row `q`, `UpdateDeviceQueueItem`
  returns `nil`, and in the table afterwards the row `q` is replaced by `qi`
  with the id and the creation time of `q` and the update time `now` (so
  device id, payload, frame counter, port, confirmed flag, emit-at,
  forwarded-at and retry-count are those of `qi`), every other row as
  before. -/
theorem C11_store_not_found_semantics (env : Env) (db : Table)
    (hexec : env.execErr db = none) (hra : env.rowsAffectedErr db = none) :
    (∀ id : Int, (∀ r ∈ db, r.ID ≠ id) →
      DeleteDeviceQueueItem env db id = (db, some Error.ErrDoesNotExist)) ∧
    (∀ (now : Nat) (qi : DeviceQueueItem), (∀ r ∈ db, r.ID ≠ qi.ID) →
      UpdateDeviceQueueItem env now db qi =
        ({ qi with UpdatedAt := now }, db, some Error.ErrDoesNotExist)) ∧
    (∀ q ∈ db, PrimaryKey db →
      DeleteDeviceQueueItem env db q.ID = (db.erase q, none) ∧ q ∉ db.erase q ∧
        ∀ r ∈ db, r ≠ q → r ∈ db.erase q) ∧
    (∀ (now : Nat) (qi : DeviceQueueItem), ∀ q ∈ db, PrimaryKey db → qi.ID = q.ID →
      UpdateDeviceQueueItem env now db qi =
        ({ qi with UpdatedAt := now },
          db.map (fun r =>
            if r = q then { qi with ID := q.ID, CreatedAt := q.CreatedAt, UpdatedAt := now }
            else r),
          none)) := by
  refine ⟨?_, ?_, ?_, ?_⟩
  · intro id habs
    unfold DeleteDeviceQueueItem
    simp only [hexec, hra]
    rw [filter_id_of_absent habs]
    simp
  · intro now qi habs
    unfold UpdateDeviceQueueItem
    simp only [hexec, hra]
    rw [map_update_of_absent _ habs]
    have h0 : (db.filter (fun r => decide (r.ID = qi.ID))).length = 0 := by
      rw [List.length_eq_zero, List.filter_eq_nil_iff]
      intro r hr
      simpa using habs r hr
    rw [if_pos h0]
  · intro q hq hpk
    refine ⟨?_, ?_, ?_⟩
    · rw [delete_of_mem hexec hra hq, filter_id_eq_erase hpk hq]
    · intro h
      exact ((List.Nodup.mem_erase_iff hpk.nodup).1 h).1 rfl
    · intro r hr hne
      exact (List.mem_erase_of_ne hne).2 hr
  · intro now qi q hq hpk hid
    unfold UpdateDeviceQueueItem
    simp only [hexec, hra]
    have h0 : ¬ (db.filter (fun r => decide (r.ID = qi.ID))).length = 0 := by
      rw [List.length_eq_zero, List.filter_eq_nil_iff]
      intro h
      have := h q hq
      simp [hid] at this
    rw [if_neg h0]
    congr 2
    apply List.map_congr_left
    intro r hr
    by_cases hrq : r = q
    · subst hrq
      simp [hid]
    · have : ¬ r.ID = qi.ID := by
        rw [hid]
        exact fun h => hrq ((id_eq_iff hpk hq hr).1 h)
      simp [hrq, this]

/-- C11, witness (the table of the test of the store): no row has id 9, so
deleting and updating id 9 fail with `ErrDoesNotExist`; deleting the first
item leaves the other two; updating the first item with retry-count 2 and a
forwarded-at time changes those fields of that row only. -/
theorem C11_store_not_found_semantics_witness :
    testEnv.execErr storeItems = none ∧ testEnv.rowsAffectedErr storeItems = none ∧
    DeleteDeviceQueueItem testEnv storeItems 9 = (storeItems, some Error.ErrDoesNotExist) ∧
    UpdateDeviceQueueItem testEnv 100 storeItems { storeItem 0 with ID := 9 } =
      ({ storeItem 0 with ID := 9, UpdatedAt := 100 }, storeItems,
        some Error.ErrDoesNotExist) ∧
    DeleteDeviceQueueItem testEnv storeItems (storeItem 0).ID =
      ([storeItem 1, storeItem 2], none) ∧
    UpdateDeviceQueueItem testEnv 100 storeItems
        { storeItem 0 with RetryCount := 2, ForwardedAt := some 100 } =
      ({ storeItem 0 with RetryCount := 2, ForwardedAt := some 100, UpdatedAt := 100 },
        [{ storeItem 0 with RetryCount := 2, ForwardedAt := some 100, UpdatedAt := 100 },
          storeItem 1, storeItem 2], none) :=
  have h := C11_store_not_found_semantics testEnv storeItems rfl rfl
  ⟨rfl, rfl, h.1 9 (by decide),
    h.2.1 100 { storeItem 0 with ID := 9 } (by decide),
    (h.2.2.1 (storeItem 0) (by decide) (by decide)).1,
    h.2.2.2 100 { storeItem 0 with RetryCount := 2, ForwardedAt := some 100 } (storeItem 0)
      (by decide) (by decide) rfl⟩

/-! ## Downlink context builder -/

theorem getItems_ok {env : Env} {db : Table} (devEUI : EUI64) (h : env.queryErr db = none) :
    GetDeviceQueueItemsForDevEUI env db devEUI =
      ((queueOf db devEUI).insertionSort (fun a b => a.FCnt ≤ b.FCnt), none) := by
  simp [GetDeviceQueueItemsForDevEUI, h]

/-- C12. Let the selection engine, called for the context, return the item `q`
with `Confirmed = false` and the state `s1`, the table being under its primary
key and the driver not failing on the table of `s1`. Then
`getNextDeviceQueueItem` returns `nil`; the context afterwards has
`Confirmed = false`, `Data = q.FRMPayload`, `FPort = q.FPort`, the remaining
payload size reduced by the length of the payload, and `MoreData` true iff
the device has an item left in the queue afterwards, that is, an item other
than `q`; the table afterwards is that of `s1` with exactly `q` erased, and no
request is sent beyond those the engine sent. -/
theorem C12_unconfirmed_item_removed (env : Env) (fuel : Nat) (now : Nat) (ctx : DataContext)
    (s s1 : Store) (q : DeviceQueueItem)
    (hpk : PrimaryKey s.rows)
    (hrun : GetNextDeviceQueueItemForDevEUIMaxPayloadSizeAndFCnt env fuel s
      ctx.DeviceSession.DevEUI ctx.RemainingPayloadSize ctx.DeviceSession.FCntDown
      ctx.DeviceSession.RoutingProfileID = some (s1, q, none))
    (hconf : q.Confirmed = false)
    (hquery : env.queryErr s1.rows = none)
    (hexec : env.execErr s1.rows = none)
    (hra : env.rowsAffectedErr s1.rows = none) :
    ∃ ctx' : DataContext,
      getNextDeviceQueueItem env fuel now ctx s =
        some (ctx', { rows := s1.rows.erase q, calls := s1.calls }, none) ∧
      ctx' =
        { ctx with
          Confirmed := false
          Data := q.FRMPayload
          FPort := q.FPort
          RemainingPayloadSize := ctx.RemainingPayloadSize - (q.FRMPayload.length : Int)
          MoreData := ctx'.MoreData } ∧
      (ctx'.MoreData = true ↔ queueOf (s1.rows.erase q) ctx.DeviceSession.DevEUI ≠ []) ∧
      (ctx'.MoreData = true ↔ ∃ x ∈ queueOf s1.rows ctx.DeviceSession.DevEUI, x ≠ q) ∧
      q ∈ s1.rows ∧ q ∉ s1.rows.erase q ∧ (∀ r ∈ s1.rows, r ≠ q → r ∈ s1.rows.erase q) := by
  obtain ⟨hq, _, hsub⟩ := run_ok_inv fuel s s1 q hrun
  have hpk1 : PrimaryKey s1.rows := List.Nodup.sublist (hsub.map _) hpk
  have hqq : q ∈ queueOf s1.rows ctx.DeviceSession.DevEUI := getNext_mem_queue hq
  have hmem : q ∈ s1.rows := (mem_queueOf.1 hqq).1
  have hlen : (queueOf (s1.rows.erase q) ctx.DeviceSession.DevEUI).length + 1 =
      (queueOf s1.rows ctx.DeviceSession.DevEUI).length := by
    rw [queueOf_erase hpk1, List.length_erase_of_mem hqq]
    have := List.length_pos_of_mem hqq
    omega
  have hmore : (decide ((List.insertionSort (fun a b => a.FCnt ≤ b.FCnt)
      (queueOf s1.rows ctx.DeviceSession.DevEUI)).length > 1) = true) ↔
      queueOf (s1.rows.erase q) ctx.DeviceSession.DevEUI ≠ [] := by
    rw [List.length_insertionSort, decide_eq_true_eq, ← List.length_pos, ← hlen]
    omega
  refine ⟨{ ctx with
      Confirmed := q.Confirmed
      Data := q.FRMPayload
      FPort := q.FPort
      RemainingPayloadSize := ctx.RemainingPayloadSize - (q.FRMPayload.length : Int)
      MoreData := decide ((List.insertionSort (fun a b => a.FCnt ≤ b.FCnt)
        (queueOf s1.rows ctx.DeviceSession.DevEUI)).length > 1) },
    ?_, ?_, hmore, ?_, hmem, ?_, ?_⟩
  · simp only [getNextDeviceQueueItem, hrun, getItems_ok _ hquery, hconf,
      delete_of_mem hexec hra hmem, filter_id_eq_erase hpk1 hmem]
    rfl
  · simp [hconf]
  · rw [hmore, queueOf_erase hpk1]
    constructor
    · intro hne
      obtain ⟨x, hx⟩ := List.exists_mem_of_ne_nil _ hne
      have := (List.Nodup.mem_erase_iff (hpk1.nodup.filter _)).1 hx
      exact ⟨x, this.2, this.1⟩
    · rintro ⟨x, hx, hxq⟩ hnil
      have : x ∈ (queueOf s1.rows ctx.DeviceSession.DevEUI).erase q :=
        (List.mem_erase_of_ne hxq).2 hx
      rw [hnil] at this
      cases this
  · intro h
    exact ((List.Nodup.mem_erase_iff hpk1.nodup).1 h).1 rfl
  · intro r hr hne
    exact (List.mem_erase_of_ne hne).2 hr

/-- C12, witness (the test case with the unconfirmed first item): the queue
holds the unconfirmed item 10 and the confirmed item 11 (retry-count 2), the
downlink frame counter is 10 and the budget 242. The context gets
`Confirmed = false`, the payload of the item 10, remaining size 238 and
`MoreData = true`; the queue afterwards holds the item 11 with retry-count 2
alone. -/
theorem C12_unconfirmed_item_removed_witness :
    PrimaryKey dataItems ∧
    GetNextDeviceQueueItemForDevEUIMaxPayloadSizeAndFCnt testEnv 5
        { rows := dataItems, calls := [] } testDevEUI 242 10 "rp" =
      some ({ rows := dataItems, calls := [] }, dataItem 0, none) ∧
    (dataItem 0).Confirmed = false ∧
    (∃ ctx' : DataContext,
      getNextDeviceQueueItem testEnv 5 7 (dataCtx 10) { rows := dataItems, calls := [] } =
        some (ctx', { rows := dataItems.erase (dataItem 0), calls := [] }, none) ∧
      ctx' =
        { dataCtx 10 with
          Confirmed := false
          Data := (dataItem 0).FRMPayload
          FPort := (dataItem 0).FPort
          RemainingPayloadSize :=
            (dataCtx 10).RemainingPayloadSize - ((dataItem 0).FRMPayload.length : Int)
          MoreData := ctx'.MoreData } ∧
      (ctx'.MoreData = true ↔
        queueOf (dataItems.erase (dataItem 0)) (dataCtx 10).DeviceSession.DevEUI ≠ []) ∧
      (ctx'.MoreData = true ↔
        ∃ x ∈ queueOf dataItems (dataCtx 10).DeviceSession.DevEUI, x ≠ dataItem 0) ∧
      dataItem 0 ∈ dataItems ∧ dataItem 0 ∉ dataItems.erase (dataItem 0) ∧
      (∀ r ∈ dataItems, r ≠ dataItem 0 → r ∈ dataItems.erase (dataItem 0))) ∧
    getNextDeviceQueueItem testEnv 5 7 (dataCtx 10) { rows := dataItems, calls := [] } =
      some ({ dataCtx 10 with
              Confirmed := false, Data := [1, 2, 3, 4], FPort := 1,
              RemainingPayloadSize := 238, MoreData := true },
        { rows := [dataItem 1], calls := [] }, none) :=
  ⟨by decide, rfl, rfl,
    C12_unconfirmed_item_removed testEnv 5 7 (dataCtx 10) { rows := dataItems, calls := [] }
      { rows := dataItems, calls := [] } (dataItem 0) (by decide) rfl rfl rfl rfl rfl,
    rfl⟩

/-- Without driver failures and under the primary key, updating with the id of
a stored row `q` rewrites that row and no other. -/
theorem update_of_mem {env : Env} {db : Table} {q : DeviceQueueItem} (now : Nat)
    (qi : DeviceQueueItem) (hexec : env.execErr db = none)
    (hra : env.rowsAffectedErr db = none) (hpk : PrimaryKey db) (hq : q ∈ db)
    (hid : qi.ID = q.ID) :
    UpdateDeviceQueueItem env now db qi =
      ({ qi with UpdatedAt := now },
        db.map (fun r =>
          if r = q then { qi with ID := q.ID, CreatedAt := q.CreatedAt, UpdatedAt := now }
          else r),
        none) := by
  unfold UpdateDeviceQueueItem
  simp only [hexec, hra]
  have h0 : ¬ (db.filter (fun r => decide (r.ID = qi.ID))).length = 0 := by
    rw [List.length_eq_zero, List.filter_eq_nil_iff]
    intro h
    have := h q hq
    simp [hid] at this
  rw [if_neg h0]
  congr 2
  apply List.map_congr_left
  intro r hr
  by_cases hrq : r = q
  · subst hrq
    simp [hid]
  · have : ¬ r.ID = qi.ID := by
      rw [hid]
      exact fun h => hrq ((id_eq_iff hpk hq hr).1 h)
    simp [hrq, this]

/-- C13. Let the selection engine, called for the context, return the item `q`
with `Confirmed = true` and the state `s1`, the table being under its primary
key and the driver not failing on the table of `s1`. Then
`getNextDeviceQueueItem` returns `nil`; the context afterwards has
`Confirmed = true`, the payload and the port of `q` and the remaining payload
size reduced by the length of the payload; in the table afterwards the row
`q` is replaced by `q` with `RetryCount = q.RetryCount - 1` (and the update
time `now`; id, frame counter, payload, port and confirmed flag as before),
every other row is as before, no row is deleted, and no request is sent
beyond those the engine sent. -/
theorem C13_confirmed_item_retry_decremented (env : Env) (fuel : Nat) (now : Nat)
    (ctx : DataContext) (s s1 : Store) (q : DeviceQueueItem)
    (hpk : PrimaryKey s.rows)
    (hrun : GetNextDeviceQueueItemForDevEUIMaxPayloadSizeAndFCnt env fuel s
      ctx.DeviceSession.DevEUI ctx.RemainingPayloadSize ctx.DeviceSession.FCntDown
      ctx.DeviceSession.RoutingProfileID = some (s1, q, none))
    (hconf : q.Confirmed = true)
    (hquery : env.queryErr s1.rows = none)
    (hexec : env.execErr s1.rows = none)
    (hra : env.rowsAffectedErr s1.rows = none) :
    ∃ (ctx' : DataContext) (rows' : Table),
      getNextDeviceQueueItem env fuel now ctx s =
        some (ctx', { rows := rows', calls := s1.calls }, none) ∧
      ctx' =
        { ctx with
          Confirmed := true
          Data := q.FRMPayload
          FPort := q.FPort
          RemainingPayloadSize := ctx.RemainingPayloadSize - (q.FRMPayload.length : Int)
          MoreData := ctx'.MoreData } ∧
      (ctx'.MoreData = true ↔ ∃ x ∈ queueOf s1.rows ctx.DeviceSession.DevEUI, x ≠ q) ∧
      rows' = s1.rows.map (fun r =>
        if r = q then { q with UpdatedAt := now, RetryCount := q.RetryCount - 1 } else r) ∧
      q ∈ s1.rows ∧
      { q with UpdatedAt := now, RetryCount := q.RetryCount - 1 } ∈ rows' ∧
      rows'.length = s1.rows.length ∧
      (∀ r ∈ s1.rows, r ≠ q → r ∈ rows') := by
  obtain ⟨hq, _, hsub⟩ := run_ok_inv fuel s s1 q hrun
  have hpk1 : PrimaryKey s1.rows := List.Nodup.sublist (hsub.map _) hpk
  have hqq : q ∈ queueOf s1.rows ctx.DeviceSession.DevEUI := getNext_mem_queue hq
  have hmem : q ∈ s1.rows := (mem_queueOf.1 hqq).1
  have hnd := hpk1.nodup.filter (fun r => decide (r.DevEUI = ctx.DeviceSession.DevEUI))
  have hmore : (decide ((List.insertionSort (fun a b => a.FCnt ≤ b.FCnt)
      (queueOf s1.rows ctx.DeviceSession.DevEUI)).length > 1) = true) ↔
      ∃ x ∈ queueOf s1.rows ctx.DeviceSession.DevEUI, x ≠ q := by
    rw [List.length_insertionSort, decide_eq_true_eq]
    have hlen := List.length_erase_of_mem hqq
    have hpos := List.length_pos_of_mem hqq
    constructor
    · intro hgt
      have hne : (queueOf s1.rows ctx.DeviceSession.DevEUI).erase q ≠ [] := by
        rw [← List.length_pos]; omega
      obtain ⟨x, hx⟩ := List.exists_mem_of_ne_nil _ hne
      have := (List.Nodup.mem_erase_iff hnd).1 hx
      exact ⟨x, this.2, this.1⟩
    · rintro ⟨x, hx, hxq⟩
      have : x ∈ (queueOf s1.rows ctx.DeviceSession.DevEUI).erase q :=
        (List.mem_erase_of_ne hxq).2 hx
      have := List.length_pos_of_mem this
      omega
  refine ⟨{ ctx with
      Confirmed := q.Confirmed
      Data := q.FRMPayload
      FPort := q.FPort
      RemainingPayloadSize := ctx.RemainingPayloadSize - (q.FRMPayload.length : Int)
      MoreData := decide ((List.insertionSort (fun a b => a.FCnt ≤ b.FCnt)
        (queueOf s1.rows ctx.DeviceSession.DevEUI)).length > 1) },
    _, ?_, ?_, hmore, rfl, hmem, ?_, ?_, ?_⟩
  · have hc : (!q.Confirmed) = false := by rw [hconf]; rfl
    simp only [getNextDeviceQueueItem, hrun, getItems_ok _ hquery, hc, Bool.false_eq_true,
      if_false,
      update_of_mem now { q with RetryCount := q.RetryCount - 1 } hexec hra hpk1 hmem rfl]
  · simp [hconf]
  · exact List.mem_map.2 ⟨q, hmem, by simp⟩
  · simp
  · intro r hr hne
    exact List.mem_map.2 ⟨r, hr, by simp [hne]⟩

/-- C13, witness (the test case with the confirmed second item): the queue
holds the unconfirmed item 10 and the confirmed item 11 (retry-count 2), the
downlink frame counter is 11 and the budget 242. The engine discards the item
10, which lags behind, and returns the item 11. The context gets
`Confirmed = true`, the payload of the item 11, remaining size 238 and
`MoreData = false`; the queue afterwards holds the item 11 with retry-count
1. -/
theorem C13_confirmed_item_retry_decremented_witness :
    PrimaryKey dataItems ∧
    GetNextDeviceQueueItemForDevEUIMaxPayloadSizeAndFCnt testEnv 5
        { rows := dataItems, calls := [] } testDevEUI 242 11 "rp" =
      some ({ rows := [dataItem 1], calls := [fCntError 1 testDevEUI 10] },
        dataItem 1, none) ∧
    (dataItem 1).Confirmed = true ∧
    (∃ (ctx' : DataContext) (rows' : Table),
      getNextDeviceQueueItem testEnv 5 7 (dataCtx 11) { rows := dataItems, calls := [] } =
        some (ctx', { rows := rows', calls := [fCntError 1 testDevEUI 10] }, none) ∧
      ctx' =
        { dataCtx 11 with
          Confirmed := true
          Data := (dataItem 1).FRMPayload
          FPort := (dataItem 1).FPort
          RemainingPayloadSize :=
            (dataCtx 11).RemainingPayloadSize - ((dataItem 1).FRMPayload.length : Int)
          MoreData := ctx'.MoreData } ∧
      (ctx'.MoreData = true ↔
        ∃ x ∈ queueOf [dataItem 1] (dataCtx 11).DeviceSession.DevEUI, x ≠ dataItem 1) ∧
      rows' = [dataItem 1].map (fun r =>
        if r = dataItem 1 then
          { dataItem 1 with UpdatedAt := 7, RetryCount := (dataItem 1).RetryCount - 1 }
        else r) ∧
      dataItem 1 ∈ [dataItem 1] ∧
      { dataItem 1 with UpdatedAt := 7, RetryCount := (dataItem 1).RetryCount - 1 } ∈ rows' ∧
      rows'.length = [dataItem 1].length ∧
      (∀ r ∈ [dataItem 1], r ≠ dataItem 1 → r ∈ rows')) ∧
    getNextDeviceQueueItem testEnv 5 7 (dataCtx 11) { rows := dataItems, calls := [] } =
      some ({ dataCtx 11 with
              Confirmed := true, Data := [4, 5, 6, 7], FPort := 1,
              RemainingPayloadSize := 238, MoreData := false },
        { rows := [{ dataItem 1 with UpdatedAt := 7, RetryCount := 1 }],
          calls := [fCntError 1 testDevEUI 10] }, none) :=
  ⟨by decide, rfl, rfl,
    C13_confirmed_item_retry_decremented testEnv 5 7 (dataCtx 11)
      { rows := dataItems, calls := [] }
      { rows := [dataItem 1], calls := [fCntError 1 testDevEUI 10] } (dataItem 1)
      (by decide) rfl rfl rfl rfl rfl,
    rfl⟩

/-! ## Failure to resolve the client -/

/-- C14. If the fetch of the lowest-frame-counter item yields a disqualified
`q` and the client cannot be resolved, because the routing-profile lookup
fails with `e` or, the routing profile found, the lookup in the
application-server pool fails with `e`, then the call returns in its first
pass with the zero item and the non-nil error that wraps `e`, and the state is
as before: `q` is still in the table, nothing is deleted and no request is
sent. -/
theorem C14_client_resolution_failure_aborts (env : Env) (fuel : Nat) (s : Store)
    (devEUI : EUI64) (maxPayloadSize : Int) (fCnt : Nat) (routingProfileID : String)
    (q : DeviceQueueItem) (e : Error)
    (hq : GetNextDeviceQueueItemForDevEUI env s.rows devEUI = (q, none))
    (hd : discarded env maxPayloadSize fCnt q) :
    ((env.GetRoutingProfile routingProfileID).2 = some e →
      GetNextDeviceQueueItemForDevEUIMaxPayloadSizeAndFCnt env (fuel + 1) s devEUI
          maxPayloadSize fCnt routingProfileID =
        some (s, {}, some (Error.wrap e "get routing-profile error"))) ∧
    ((env.GetRoutingProfile routingProfileID).2 = none →
      (env.ApplicationServerPoolGet (env.GetRoutingProfile routingProfileID).1.ASID).2 =
        some e →
      GetNextDeviceQueueItemForDevEUIMaxPayloadSizeAndFCnt env (fuel + 1) s devEUI
          maxPayloadSize fCnt routingProfileID =
        some (s, {}, some (Error.wrap e "get application-server client error"))) ∧
    q ∈ s.rows := by
  refine ⟨?_, ?_, getNext_mem hq⟩
  · intro hrp
    rcases hgrp : env.GetRoutingProfile routingProfileID with ⟨rp, err⟩
    rw [hgrp] at hrp
    simp only at hrp
    subst hrp
    rw [run_succ]
    simp only [loopBody, hq, if_pos hd, hgrp, errorsWrap]
  · intro hrp hcl
    rcases hgrp : env.GetRoutingProfile routingProfileID with ⟨rp, err⟩
    rw [hgrp] at hrp hcl
    simp only at hrp hcl
    subst hrp
    rcases hget : env.ApplicationServerPoolGet rp.ASID with ⟨client, err⟩
    rw [hget] at hcl
    simp only at hcl
    subst hcl
    rw [run_succ]
    simp only [loopBody, hq, if_pos hd, hgrp, hget, errorsWrap]

/-- C14, witness: the items 100 to 104 are queued, the item 100 has
retry-count -1 and no routing profile is found. The call returns the wrapped
lookup error and the zero item; the five items are still queued and no
request has been sent. -/
theorem C14_client_resolution_failure_aborts_witness :
    GetNextDeviceQueueItemForDevEUI testEnvNoRoutingProfile testItems testDevEUI =
      (testItem 0, none) ∧
    discarded testEnvNoRoutingProfile 7 100 (testItem 0) ∧
    (testEnvNoRoutingProfile.GetRoutingProfile "rp").2 = some Error.ErrDoesNotExist ∧
    GetNextDeviceQueueItemForDevEUIMaxPayloadSizeAndFCnt testEnvNoRoutingProfile (4 + 1)
        { rows := testItems, calls := [] } testDevEUI 7 100 "rp" =
      some ({ rows := testItems, calls := [] }, {},
        some (Error.wrap Error.ErrDoesNotExist "get routing-profile error")) ∧
    testItem 0 ∈ testItems :=
  have h := C14_client_resolution_failure_aborts testEnvNoRoutingProfile 4
    { rows := testItems, calls := [] } testDevEUI 7 100 "rp" (testItem 0)
    Error.ErrDoesNotExist rfl (by decide)
  ⟨rfl, by decide, rfl, h.1 rfl, h.2.2⟩

/-! ## Items behind the expected frame counter -/

/-- The `uint32` difference of a smaller counter and a larger one. -/
theorem u32sub_of_lt {a b : Nat} (hab : a < b) (hb : b < 4294967296) :
    u32sub a b = 4294967296 - (b - a) := by
  unfold u32sub
  omega

/-- C15. Let the fetch of the lowest-frame-counter item yield `q` with
`q.RetryCount ≥ 0` and `q.FCnt < fCnt` (both `uint32`). Then the gap the code
computes is `(q.FCnt - fCnt) mod 2^32 = 2^32 - (fCnt - q.FCnt)`; it exceeds
`MaxFCntGap` exactly when `fCnt - q.FCnt < 2^32 - MaxFCntGap`; and whenever it
does, the client being resolved, the delete succeeding and the client
accepting the request, one pass of the loop erases exactly `q` and sends
exactly one request, the `HandleError` of type `DEVICE_QUEUE_ITEM_FCNT` with
`FCnt = q.FCnt`. -/
theorem C15_lagging_item_discarded (env : Env) (s : Store) (devEUI : EUI64)
    (maxPayloadSize : Int) (fCnt : Nat) (routingProfileID : String) (q : DeviceQueueItem)
    (rp : RoutingProfile) (client : Nat)
    (hpk : PrimaryKey s.rows)
    (hq : GetNextDeviceQueueItemForDevEUI env s.rows devEUI = (q, none))
    (hretry : 0 ≤ q.RetryCount)
    (hlag : q.FCnt < fCnt)
    (hu32 : fCnt < 4294967296)
    (hrp : env.GetRoutingProfile routingProfileID = (rp, none))
    (hcl : env.ApplicationServerPoolGet rp.ASID = (client, none))
    (hdel : (DeleteDeviceQueueItem env s.rows q.ID).2 = none)
    (hsend : ∀ c, env.asClientErr s.calls c = none) :
    u32sub q.FCnt fCnt = 4294967296 - (fCnt - q.FCnt) ∧
    (u32sub q.FCnt fCnt > env.MaxFCntGap ↔
      (fCnt : Int) - (q.FCnt : Int) < 4294967296 - (env.MaxFCntGap : Int)) ∧
    (u32sub q.FCnt fCnt > env.MaxFCntGap →
      loopBody env devEUI maxPayloadSize fCnt routingProfileID s =
        Step.next
          { rows := s.rows.erase q
            calls := s.calls ++ [ASCall.HandleError client
              { DevEUI := devEUI, Type_ := ErrorType.DEVICE_QUEUE_ITEM_FCNT, FCnt := q.FCnt,
                Error := "frame-counter exceeds MaxFCntGap" }] }) ∧
    q ∈ s.rows ∧ q ∉ s.rows.erase q := by
  have hmem : q ∈ s.rows := getNext_mem hq
  have hsub := u32sub_of_lt hlag hu32
  refine ⟨hsub, ?_, ?_, hmem, ?_⟩
  · rw [hsub]
    omega
  · intro hgap
    have hd : discarded env maxPayloadSize fCnt q := Or.inl hgap
    have hnr : ¬ q.RetryCount < 0 := by omega
    have hc : discardCall env client devEUI maxPayloadSize fCnt q =
        some (fCntError client devEUI q.FCnt) := by
      unfold discardCall; rw [if_neg hnr, if_pos hgap]; rfl
    rw [loopBody_discard hq hd hrp hcl hdel hc, hsend, filter_id_eq_erase hpk hmem]
    rfl
  · intro h
    exact ((List.Nodup.mem_erase_iff hpk.nodup).1 h).1 rfl

/-- C15, witness (the test case in which the first item is discarded for its
frame counter): the expected frame counter is 102 and the maximum payload
size 7; the item 101, whose payload of 7 bytes fits, lags by one, the gap is
`2^32 - 1`, and one pass erases it and sends the frame-counter error for
101. -/
theorem C15_lagging_item_discarded_witness :
    (testItem 1).FCnt < 102 ∧ 0 ≤ (testItem 1).RetryCount ∧
    ((testItem 1).FRMPayload.length : Int) ≤ 7 ∧
    u32sub (testItem 1).FCnt 102 = 4294967296 - (102 - (testItem 1).FCnt) ∧
    u32sub (testItem 1).FCnt 102 = 4294967295 ∧
    loopBody testEnv testDevEUI 7 102 "rp" { rows := testItems.tail, calls := [] } =
      Step.next
        { rows := testItems.tail.erase (testItem 1)
          calls := [] ++ [ASCall.HandleError 1
            { DevEUI := testDevEUI, Type_ := ErrorType.DEVICE_QUEUE_ITEM_FCNT,
              FCnt := (testItem 1).FCnt, Error := "frame-counter exceeds MaxFCntGap" }] } :=
  have h := C15_lagging_item_discarded testEnv { rows := testItems.tail, calls := [] }
    testDevEUI 7 102 "rp" (testItem 1) { RoutingProfileID := "rp", ASID := "as" } 1
    (by decide) rfl (by decide) (by decide) (by decide) rfl rfl rfl (fun _ => rfl)
  ⟨by decide, by decide, by decide, h.1, by decide, h.2.2.1 (by decide)⟩

/-! ## Termination of the loop -/

/-- More passes do not change the result of a call that returned. -/
theorem run_mono {env : Env} {devEUI : EUI64} {maxPayloadSize : Int} {fCnt : Nat}
    {routingProfileID : String} :
    ∀ (fuel : Nat) (s : Store) (r : Store × DeviceQueueItem × Option Error),
      GetNextDeviceQueueItemForDevEUIMaxPayloadSizeAndFCnt env fuel s devEUI maxPayloadSize
          fCnt routingProfileID = some r →
      ∀ k, GetNextDeviceQueueItemForDevEUIMaxPayloadSizeAndFCnt env (fuel + k) s devEUI
          maxPayloadSize fCnt routingProfileID = some r := by
  intro fuel
  induction fuel with
  | zero =>
    intro s r h
    simp [GetNextDeviceQueueItemForDevEUIMaxPayloadSizeAndFCnt] at h
  | succ n ih =>
    intro s r h k
    rw [Nat.add_right_comm, run_succ]
    rw [run_succ] at h
    cases hstep : loopBody env devEUI maxPayloadSize fCnt routingProfileID s with
    | ret s1 qi err =>
      rw [hstep] at h
      exact h
    | next s1 =>
      rw [hstep] at h
      exact ih s1 r h k

/-- What one pass does to the state, under the primary key: either nothing,
or it erases one item of the device's queue and sends at most one request;
a pass that continues is of the second kind. -/
theorem loopBody_effect (env : Env) (devEUI : EUI64) (maxPayloadSize : Int) (fCnt : Nat)
    (routingProfileID : String) (s : Store) (hpk : PrimaryKey s.rows) :
    (∃ qi err, loopBody env devEUI maxPayloadSize fCnt routingProfileID s = Step.ret s qi err) ∨
    ∃ q l, q ∈ queueOf s.rows devEUI ∧ l.length ≤ 1 ∧
      ((∃ qi err, loopBody env devEUI maxPayloadSize fCnt routingProfileID s =
          Step.ret { rows := s.rows.erase q, calls := s.calls ++ l } qi err) ∨
        loopBody env devEUI maxPayloadSize fCnt routingProfileID s =
          Step.next { rows := s.rows.erase q, calls := s.calls ++ l }) := by
  rcases hget : GetNextDeviceQueueItemForDevEUI env s.rows devEUI with ⟨q, _ | e⟩
  swap
  · left
    exact ⟨{}, errorsWrap (some e) "get next device-queue item error",
      by simp only [loopBody, hget]⟩
  by_cases hd : discarded env maxPayloadSize fCnt q
  swap
  · left
    exact ⟨_, _, loopBody_keep hget hd⟩
  rcases hgrp : env.GetRoutingProfile routingProfileID with ⟨rp, _ | e⟩
  swap
  · left
    exact ⟨{}, errorsWrap (some e) "get routing-profile error",
      by simp only [loopBody, hget, if_pos hd, hgrp]⟩
  rcases hcl : env.ApplicationServerPoolGet rp.ASID with ⟨client, _ | e⟩
  swap
  · left
    exact ⟨{}, errorsWrap (some e) "get application-server client error",
      by simp only [loopBody, hget, if_pos hd, hgrp, hcl]⟩
  have hqq : q ∈ queueOf s.rows devEUI := getNext_mem_queue hget
  have hmem : q ∈ s.rows := getNext_mem hget
  rcases hdel : DeleteDeviceQueueItem env s.rows q.ID with ⟨db, _ | e⟩
  · have hdel2 : (DeleteDeviceQueueItem env s.rows q.ID).2 = none := by rw [hdel]
    obtain ⟨c, hc, _⟩ := discardCall_of_discarded client devEUI hd
    have hstep := loopBody_discard hget hd hgrp hcl hdel2 hc
    rw [filter_id_eq_erase hpk hmem] at hstep
    right
    refine ⟨q, [c], hqq, le_refl _, ?_⟩
    cases hsend : env.asClientErr s.calls c with
    | none => right; rw [hstep, hsend]
    | some e => left; exact ⟨_, _, by rw [hstep, hsend]⟩
  · have hdb : db = s.rows ∨ db = s.rows.erase q := by
      have h1 : db = (DeleteDeviceQueueItem env s.rows q.ID).1 := by rw [hdel]
      rw [h1, ← filter_id_eq_erase hpk hmem]
      unfold DeleteDeviceQueueItem
      cases env.execErr s.rows with
      | some e1 => left; rfl
      | none =>
        right
        cases env.rowsAffectedErr s.rows with
        | some e2 => rfl
        | none =>
          simp only
          split <;> rfl
    rcases hdb with rfl | rfl
    · left
      exact ⟨{}, errorsWrap (some e) "delete device-queue item error",
        by simp only [loopBody, hget, if_pos hd, hgrp, hcl, hdel]⟩
    · right
      refine ⟨q, [], hqq, Nat.zero_le _,
        Or.inl ⟨{}, errorsWrap (some e) "delete device-queue item error", ?_⟩⟩
      simp only [loopBody, hget, if_pos hd, hgrp, hcl, hdel, List.append_nil]

/-- The call on a queue of `n` items returns within `n + 1` passes; it sends
no more requests than it deletes rows, and deletes only rows of the device. -/
theorem run_terminates {env : Env} {devEUI : EUI64} {maxPayloadSize : Int} {fCnt : Nat}
    {routingProfileID : String} :
    ∀ (n : Nat) (s : Store), PrimaryKey s.rows → (queueOf s.rows devEUI).length = n →
      ∃ (s' : Store) (qi : DeviceQueueItem) (err : Option Error) (l : List ASCall),
        GetNextDeviceQueueItemForDevEUIMaxPayloadSizeAndFCnt env (n + 1) s devEUI
            maxPayloadSize fCnt routingProfileID = some (s', qi, err) ∧
        s'.calls = s.calls ++ l ∧
        l.length + (queueOf s'.rows devEUI).length ≤ n ∧
        s'.rows.length + n = s.rows.length + (queueOf s'.rows devEUI).length := by
  intro n
  induction n with
  | zero =>
    intro s hpk hlen
    rcases loopBody_effect env devEUI maxPayloadSize fCnt routingProfileID s hpk with
      ⟨qi, err, h⟩ | ⟨q, l, hq, _, _⟩
    · refine ⟨s, qi, err, [], ?_, by simp, by simp [hlen], by simp [hlen]⟩
      rw [run_succ, h]
    · rw [List.length_eq_zero.1 hlen] at hq
      cases hq
  | succ n ih =>
    intro s hpk hlen
    rcases loopBody_effect env devEUI maxPayloadSize fCnt routingProfileID s hpk with
      ⟨qi, err, h⟩ | ⟨q, l, hq, hl, h⟩
    · refine ⟨s, qi, err, [], ?_, by simp, by simp [hlen], by simp [hlen]⟩
      rw [run_succ, h]
    · have hmem : q ∈ s.rows := (mem_queueOf.1 hq).1
      have hqlen : (queueOf (s.rows.erase q) devEUI).length = n := by
        rw [queueOf_erase hpk, List.length_erase_of_mem hq, hlen]; rfl
      have hrlen : (s.rows.erase q).length + 1 = s.rows.length := by
        rw [List.length_erase_of_mem hmem]
        have := List.length_pos_of_mem hmem
        omega
      rcases h with ⟨qi, err, h⟩ | h
      · refine ⟨{ rows := s.rows.erase q, calls := s.calls ++ l }, qi, err, l, ?_, rfl, ?_, ?_⟩
        · rw [run_succ, h]
        · simp only [hqlen]; omega
        · simp only [hqlen]; omega
      · obtain ⟨s', qi, err, l', hrun, hcalls, hle, hrows⟩ :=
          ih { rows := s.rows.erase q, calls := s.calls ++ l } (hpk.erase q) hqlen
        refine ⟨s', qi, err, l ++ l', ?_, ?_, ?_, ?_⟩
        · rw [run_succ, h]
          exact hrun
        · rw [hcalls, List.append_assoc]
        · rw [List.length_append]; omega
        · simp only at hrows
          omega

/-- C16. For a table under its primary key in which the device has `n`
items: a pass of the loop that continues leaves the device with exactly one
item less (and the table under its primary key, so the same holds of the
next pass); hence the call returns, with an item or an error, whenever more
than `n` passes are allowed, each pass fetching the lowest item once, so
after at most `n + 1` fetches; the result does not depend on the number of
passes allowed; the call deletes at most `n` rows and sends no more requests
than it deletes rows. -/
theorem C16_discard_loop_terminates (env : Env) (s : Store) (devEUI : EUI64)
    (maxPayloadSize : Int) (fCnt : Nat) (routingProfileID : String)
    (hpk : PrimaryKey s.rows) :
    (∀ s1, loopBody env devEUI maxPayloadSize fCnt routingProfileID s = Step.next s1 →
      (queueOf s1.rows devEUI).length + 1 = (queueOf s.rows devEUI).length ∧
        PrimaryKey s1.rows) ∧
    ∃ (s' : Store) (qi : DeviceQueueItem) (err : Option Error) (emitted : List ASCall),
      (∀ fuel, (queueOf s.rows devEUI).length < fuel →
        GetNextDeviceQueueItemForDevEUIMaxPayloadSizeAndFCnt env fuel s devEUI maxPayloadSize
          fCnt routingProfileID = some (s', qi, err)) ∧
      s'.calls = s.calls ++ emitted ∧
      emitted.length ≤ s.rows.length - s'.rows.length ∧
      s.rows.length - s'.rows.length ≤ (queueOf s.rows devEUI).length := by
  refine ⟨?_, ?_⟩
  · intro s1 hstep
    obtain ⟨q, hq, _, hrows, _⟩ := loopBody_next hstep
    have hqq : q ∈ queueOf s.rows devEUI := getNext_mem_queue hq
    rw [filter_id_eq_erase hpk (getNext_mem hq)] at hrows
    rw [hrows, queueOf_erase hpk, List.length_erase_of_mem hqq]
    have := List.length_pos_of_mem hqq
    exact ⟨by omega, hpk.erase q⟩
  · obtain ⟨s', qi, err, l, hrun, hcalls, hle, hrows⟩ :=
      @run_terminates env devEUI maxPayloadSize fCnt routingProfileID
        (queueOf s.rows devEUI).length s hpk rfl
    refine ⟨s', qi, err, l, ?_, hcalls, by omega, by omega⟩
    intro fuel hfuel
    obtain ⟨k, rfl⟩ : ∃ k, fuel = (queueOf s.rows devEUI).length + 1 + k :=
      ⟨fuel - ((queueOf s.rows devEUI).length + 1), by omega⟩
    exact run_mono _ s _ hrun k

/-- C16, witness (the test case with maximum payload size 5 and expected
frame counter 100, five items queued): the call returns the item 103 after
three discards, with four passes as with six. -/
theorem C16_discard_loop_terminates_witness :
    PrimaryKey testItems ∧
    ((∀ s1, loopBody testEnv testDevEUI 5 100 "rp" { rows := testItems, calls := [] } =
        Step.next s1 →
      (queueOf s1.rows testDevEUI).length + 1 = (queueOf testItems testDevEUI).length ∧
        PrimaryKey s1.rows) ∧
    ∃ (s' : Store) (qi : DeviceQueueItem) (err : Option Error) (emitted : List ASCall),
      (∀ fuel, (queueOf testItems testDevEUI).length < fuel →
        GetNextDeviceQueueItemForDevEUIMaxPayloadSizeAndFCnt testEnv fuel
          { rows := testItems, calls := [] } testDevEUI 5 100 "rp" = some (s', qi, err)) ∧
      s'.calls = [] ++ emitted ∧
      emitted.length ≤ testItems.length - s'.rows.length ∧
      testItems.length - s'.rows.length ≤ (queueOf testItems testDevEUI).length) ∧
    GetNextDeviceQueueItemForDevEUIMaxPayloadSizeAndFCnt testEnv 4
        { rows := testItems, calls := [] } testDevEUI 5 100 "rp" =
      some ({ rows := testItems.drop 3,
              calls := [nack 1 testDevEUI 100, sizeError 1 testDevEUI 101,
                sizeError 1 testDevEUI 102] }, testItem 3, none) ∧
    GetNextDeviceQueueItemForDevEUIMaxPayloadSizeAndFCnt testEnv 6
        { rows := testItems, calls := [] } testDevEUI 5 100 "rp" =
      GetNextDeviceQueueItemForDevEUIMaxPayloadSizeAndFCnt testEnv 4
        { rows := testItems, calls := [] } testDevEUI 5 100 "rp" :=
  ⟨by decide,
    C16_discard_loop_terminates testEnv { rows := testItems, calls := [] } testDevEUI 5 100
      "rp" (by decide),
    rfl, rfl⟩

end Loraserver
